import Mathlib

/-!
Verification development for the `sentry-clickup-github-worker` repository.

The repository contains two Cloudflare-Worker sources:
  * `src/unnamed/part_000` — the full worker (Sentry → ClickUp → GitHub with an
    escalation trigger), modelled below in namespace `W2`;
  * `src/src/index.ts` — the single-file Sentry → GitHub worker, modelled in
    namespace `W1`.

JavaScript values flowing through the handlers are modelled by a small JSON
value type `Json`; `undefined` and `null` are identified (the handlers only
distinguish them through `??`, `||`, truthiness and stringification, which
agree on both).  JavaScript numbers are modelled as integers (the payload
fields the code reads are ids, line numbers and HTTP statuses).  Network
effects are modelled by an oracle structure supplying each downstream call's
response, and every outbound call is recorded in an effect trace.
-/

/-- JSON/JS value, as read by the worker from parsed webhook payloads. -/
inductive Json where
  | null
  | bool (b : Bool)
  | num (n : Int)
  | str (s : String)
  | arr (elems : List Json)
  | obj (fields : List (String × Json))
deriving Inhabited

/-- Property access `v?.k` / `v.k`: field lookup on objects, `undefined`
(here: `null`) on anything else.  JSON objects have unique keys. -/
def Json.get : Json → String → Json
  | .obj fs, k => match fs.find? (fun p => p.1 == k) with
    | some p => p.2
    | none => .null
  | _, _ => .null

/-- Index access `v?.[i]`: element lookup on arrays, `undefined` otherwise. -/
def Json.idx : Json → Nat → Json
  | .arr xs, i => (xs.get? i).getD .null
  | _, _ => .null

/-- JavaScript truthiness of a value (NaN does not arise in this model). -/
def Json.truthy : Json → Bool
  | .null => false
  | .bool b => b
  | .num n => n ≠ 0
  | .str s => s ≠ ""
  | .arr _ => true
  | .obj _ => true

/-- JavaScript `a ?? b` (nullish coalescing; `undefined` ≡ `null` here). -/
def jnn (a b : Json) : Json :=
  match a with
  | .null => b
  | v => v

/-- JavaScript `a || b`. -/
def jor (a b : Json) : Json :=
  if a.truthy then a else b

mutual
/-- JavaScript `String(v)` / template-literal stringification. -/
def Json.toStringJS : Json → String
  | .null => "null"
  | .bool b => if b then "true" else "false"
  | .num n => toString n
  | .str s => s
  | .arr xs => String.intercalate "," (Json.toStrList xs)
  | .obj _ => "[object Object]"

/-- `Array.prototype.toString` stringifies elements, rendering `null` and
`undefined` as the empty string. -/
def Json.toStrList : List Json → List String
  | [] => []
  | x :: t =>
    (match x with
      | .null => ""
      | v => Json.toStringJS v) :: Json.toStrList t
end

/-- The backtick character (code point 96). -/
def btChar : Char := Char.ofNat 96

/-- JavaScript `\s` / `String.prototype.trim` whitespace set
(WhiteSpace ∪ LineTerminator of ECMA-262). -/
def isJsWs (c : Char) : Bool :=
  let n := c.toNat
  n = 9 ∨ n = 10 ∨ n = 11 ∨ n = 12 ∨ n = 13 ∨ n = 32 ∨
  n = 0xa0 ∨ n = 0x1680 ∨ (0x2000 ≤ n ∧ n ≤ 0x200a) ∨
  n = 0x2028 ∨ n = 0x2029 ∨ n = 0x202f ∨ n = 0x205f ∨ n = 0x3000 ∨ n = 0xfeff

/-- JavaScript line terminators (what a multiline dollar matches before). -/
def isLineTerm (c : Char) : Bool :=
  let n := c.toNat
  n = 10 ∨ n = 13 ∨ n = 0x2028 ∨ n = 0x2029

/-- `String.prototype.trim`. -/
def jsTrim (s : String) : String :=
  String.mk (((s.toList.dropWhile isJsWs).reverse.dropWhile isJsWs).reverse)

/-- `String.prototype.toLowerCase` (ASCII range; the strings compared
case-insensitively by the worker are ASCII). -/
def jsToLower (s : String) : String :=
  String.mk (s.toList.map Char.toLower)

/-- `Array.prototype.join("\n")`. -/
def joinNL : List String → String
  | [] => ""
  | [s] => s
  | s :: rest => s ++ "\n" ++ joinNL rest

/-- `Array.prototype.slice(-n)`: the last `n` elements (all of them when
fewer than `n`). -/
def takeLast (n : Nat) (l : List Json) : List Json :=
  l.drop (l.length - n)

/-- Fuelled worker for `jsSplit` (fuel `l.length + 1` always suffices:
each step either consumes a character or a non-empty separator). -/
def jsSplitFuel (sep : List Char) : Nat → List Char → List Char → List (List Char)
  | 0, l, acc => [acc.reverse ++ l]
  | fuel + 1, l, acc =>
    match l with
    | [] => [acc.reverse]
    | c :: tl =>
      if sep.isPrefixOf (c :: tl) then
        acc.reverse :: jsSplitFuel sep fuel ((c :: tl).drop sep.length) []
      else jsSplitFuel sep fuel tl (c :: acc)

/-- `String.prototype.split(sep)` for a non-empty separator: the
left-to-right, non-overlapping scan. -/
def jsSplit (s : String) (sep : String) : List String :=
  (jsSplitFuel sep.toList (s.toList.length + 1) s.toList []).map String.mk

/-- Remainder of `l` after the first occurrence of `sep`, if any
(the scan JavaScript `String.prototype.split` performs). -/
def splitFind (sep : List Char) : List Char → Option (List Char)
  | [] => if sep = [] then some [] else none
  | c :: tl =>
    if sep.isPrefixOf (c :: tl) then some ((c :: tl).drop sep.length)
    else splitFind sep tl

theorem splitFind_shorter {sep : List Char} (hs : sep ≠ []) :
    ∀ {l r : List Char}, splitFind sep l = some r → r.length < l.length := by
  intro l
  induction l with
  | nil => intro r h; simp [splitFind, hs] at h
  | cons c tl ih =>
    intro r h
    rw [splitFind] at h
    by_cases hp : sep.isPrefixOf (c :: tl)
    · simp only [hp, if_pos] at h
      cases h
      have h1 : 1 ≤ sep.length := by
        cases sep with
        | nil => exact absurd rfl hs
        | cons _ _ => simp
      rw [List.length_drop]
      simp only [List.length_cons]
      omega
    · simp only [hp, if_neg, not_false_iff] at h
      have := ih h
      simp at *
      omega

/-- Separator used by `description.split("### AI Summary")`. -/
def aiSep : List Char := "### AI Summary".toList

/-- Fuelled worker for `popSplit` (each found separator strictly shortens
the remainder, so `l.length + 1` units of fuel always suffice, see
`splitFind_shorter`). -/
def popSplitFuel : Nat → List Char → List Char
  | 0, l => l
  | fuel + 1, l =>
    match splitFind aiSep l with
    | none => l
    | some r => popSplitFuel fuel r

/-- `l.split(sep).pop()` for `sep = aiSep`: the last segment of the
left-to-right, non-overlapping split scan. -/
def popSplit (l : List Char) : List Char :=
  popSplitFuel (l.length + 1) l

/-- `handleClickUp`'s recovery of the AI-summary text from a ClickUp task
description: `description.split("### AI Summary").pop()`, then
`aiBlock ? aiBlock.trim() : null`. -/
def aiFromDescription (description : String) : Option String :=
  let aiBlock := String.mk (popSplit description.toList)
  if aiBlock ≠ "" then some (jsTrim aiBlock) else none

/-- Exact literal match at the head of the input, returning the remainder. -/
def matchLit : List Char → List Char → Option (List Char)
  | [], l => some l
  | _ :: _, [] => none
  | p :: ps, c :: cs => if p = c then matchLit ps cs else none

/-- ASCII case-insensitive literal match at the head of the input
(the `i` flag of the extraction regex; both literals are ASCII). -/
def matchCI : List Char → List Char → Option (List Char)
  | [], l => some l
  | _ :: _, [] => none
  | p :: ps, c :: cs => if p.toLower = c.toLower then matchCI ps cs else none

/-- The literal of the extraction pattern `/GroupKey:\s*`([^`]+)`/i`. -/
def gkLit : List Char := "GroupKey:".toList

/-- One attempt of the extraction pattern at the current position: the
case-insensitive literal, greedy `\s*`, an opening backtick, a maximal
non-empty backtick-free run (the capture), and the closing backtick.
Backtracking cannot produce any other outcome: a backtick is not
whitespace, and no shortened capture ends before a backtick. -/
def tryGk (l : List Char) : Option (List Char) :=
  match matchCI gkLit l with
  | none => none
  | some r =>
    match r.dropWhile isJsWs with
    | c :: r3 =>
      if c = btChar then
        let cap := r3.takeWhile (fun d => d ≠ btChar)
        match r3.dropWhile (fun d => d ≠ btChar) with
        | _ :: _ => if cap ≠ [] then some cap else none
        | [] => none
      else none
    | [] => none

/-- Leftmost-match scan of `/GroupKey:\s*`([^`]+)`/i`, returning the
captured group. -/
def scanGk : List Char → Option (List Char)
  | [] => none
  | c :: tl =>
    match tryGk (c :: tl) with
    | some cap => some cap
    | none => scanGk tl

/-- `description.match(/GroupKey:\s*`([^`]+)`/i)?.[1]`. -/
def extractGroupKey (s : String) : Option String :=
  (scanGk s.toList).map String.mk

/-- The literal of the title patterns `/\[Sentry]\[.../`. -/
def sentryTagLit : List Char := "[Sentry][".toList

/-- `name.replace(/^\[Sentry]\[[^\]]+]\s*/, "")`: strip the anchored tag
prefix when it matches, otherwise return the name unchanged. -/
def stripSentryTag (name : String) : String :=
  match matchLit sentryTagLit name.toList with
  | none => name
  | some r =>
    let inner := r.takeWhile (fun d => d ≠ ']')
    match r.dropWhile (fun d => d ≠ ']') with
    | _ :: r3 =>
      if inner ≠ [] then String.mk (r3.dropWhile isJsWs) else name
    | [] => name

/-- Lazy completion of `(.+?)\]\s`: consume non-line-terminator characters
one at a time (at least one) until a literal `]` followed by one whitespace
character comes next; returns the capture. -/
def envInner (acc : List Char) : List Char → Option (List Char)
  | [] => none
  | c :: tl =>
    if isLineTerm c then none
    else
      match tl with
      | d :: w :: _ =>
        if d = ']' ∧ isJsWs w then some (c :: acc).reverse
        else envInner (c :: acc) tl
      | _ => envInner (c :: acc) tl

/-- Leftmost-match scan of `/\[Sentry]\[(.+?)\]\s/`, returning group 1. -/
def envScan : List Char → Option (List Char)
  | [] => none
  | c :: tl =>
    match matchLit sentryTagLit (c :: tl) with
    | some r =>
      match envInner [] r with
      | some cap => some cap
      | none => envScan tl
    | none => envScan tl

/-- The literal of `/\*\*Sentry Issue:\*\*\s*(\S+)/`. -/
def urlLit : List Char := "**Sentry Issue:**".toList

/-- Leftmost-match scan of `/\*\*Sentry Issue:\*\*\s*(\S+)/`: after the
literal, greedy `\s*` and then a maximal non-empty run of non-whitespace
characters (group 1). -/
def urlScan : List Char → Option (List Char)
  | [] => none
  | c :: tl =>
    match matchLit urlLit (c :: tl) with
    | some r =>
      let r2 := r.dropWhile isJsWs
      let tok := r2.takeWhile (fun d => ¬ isJsWs d)
      if tok ≠ [] then some tok else urlScan tl
    | none => urlScan tl

/-- An HTTP response as the workers build them: plain text plus status. -/
structure Response where
  status : Nat
  body : String
deriving DecidableEq, Repr

/-- `const ok = (msg = "ok", status = 200) => new Response(msg, { status })`. -/
def respOk (msg : String := "ok") (status : Nat := 200) : Response :=
  ⟨status, msg⟩

/-- `const err = (msg, status = 400) => new Response(msg, { status })`. -/
def respErr (msg : String) (status : Nat := 400) : Response :=
  ⟨status, msg⟩

/-- Truthiness of an optional environment string (`undefined` or `""` are
falsy). -/
def truthyOpt : Option String → Bool
  | some s => s ≠ ""
  | none => false

/-- Truthiness of a plain string. -/
def truthyStr (s : String) : Bool := s ≠ ""

/-- `const bool = (v, d = false) => (v ? v.toLowerCase() === "true" : d)`. -/
def boolFlag (v : Option String) (d : Bool) : Bool :=
  if truthyOpt v then jsToLower (v.getD "") = "true" else d

/-- JavaScript `v || d` on an optional environment string. -/
def jorOptStr (v : Option String) (d : String) : String :=
  if truthyOpt v then v.getD "" else d

namespace W2

/-- `type StateRecord = { clickup_task_id?; issue_number?; count; first_seen }`.
Identifiers written to KV are stored stringified (`JSON.stringify`). -/
structure StateRecord where
  clickup_task_id : Option String := none
  issue_number : Option Nat := none
  count : Nat
  first_seen : String
deriving DecidableEq, Repr

/-- `type StandardsRecord = { text; updated_at }`. -/
structure StandardsRecord where
  text : String
  updated_at : String
deriving DecidableEq, Repr

/-- A value stored in the `STATE` KV namespace (correlation records under
group keys, the standards record under `STANDARDS_KEY`). -/
inductive KVVal where
  | state (r : StateRecord)
  | std (s : StandardsRecord)
deriving DecidableEq, Repr

def STANDARDS_KEY : String := "STANDARDS:TEXT"

/-- The KV namespace; more recent writes are consed on and shadow older
entries. -/
abbrev Store := List (String × KVVal)

def kvGetRec (store : Store) (k : String) : Option StateRecord :=
  match Option.map Prod.snd (store.find? (fun p => p.1 == k)) with
  | some (.state r) => some r
  | _ => none

def kvGetStd (store : Store) : Option StandardsRecord :=
  match Option.map Prod.snd (store.find? (fun p => p.1 == STANDARDS_KEY)) with
  | some (.std s) => some s
  | _ => none

def kvPut (store : Store) (k : String) (v : KVVal) : Store :=
  (k, v) :: store

/-- The worker's configuration bindings.  `LEVEL_LABELS` models
`LEVEL_LABELS_JSON` after `JSON.parse` (a parse failure, caught in
`levelToLabel`, is `none`). -/
structure Env where
  SENTRY_SHARED_TOKEN : Option String := none
  CLICKUP_SHARED_TOKEN : Option String := none
  ADMIN_TOKEN : Option String := none
  GITHUB_TOKEN : String := ""
  GITHUB_REPO : String := ""
  GITHUB_LABELS : Option String := none
  GITHUB_AGENT_LABEL : Option String := none
  GITHUB_ASSIGNEE : Option String := none
  GITHUB_API_VERSION : Option String := none
  CLICKUP_TOKEN : Option String := none
  CLICKUP_LIST_ID : Option String := none
  CLICKUP_FIX_TAG : Option String := none
  GITHUB_MODEL_API_KEY : Option String := none
  OPENAI_API_KEY : Option String := none
  CREATE_GITHUB_ON_SENTRY : Option String := none
  UPDATE_CLICKUP_ON_REPEAT : Option String := none
  LEVEL_LABELS : Option (List (String × String)) := none

/-- Downstream responses for one request.  `now` is `nowIso()` (the handful
of `nowIso()` calls in one request are modelled as one instant). -/
structure Oracle where
  now : String
  aiResult : Option String := none
  cuCreate : Except (Nat × String) String := .error (500, "")
  cuRepeatCommentOk : Bool := true
  cuXrefCommentOk : Bool := true
  ghCreate : Except (Nat × String) Nat := .error (500, "")
  ghPatch : Except (Nat × String) Unit := .error (500, "")
  cuGetTask : Except (Nat × String) Json := .error (500, "")

/-- Outbound side effects of one request, in order. -/
inductive Eff where
  | cuCreateCall
  | cuCommentCall (succeeded : Bool)
  | cuGetTaskCall
  | ghCreateCall
  | ghPatchCall
  | kvPut (key : String) (val : KVVal)
deriving DecidableEq, Repr

/-- The normalized event produced by `parseSentry` (fields keep their raw
JSON values; JavaScript stringifies them only at template sites). -/
structure Parsed where
  projectSlug : Json
  environment : Json
  sentryIssueId : Json
  title : Json
  permalink : Json
  level : Json
  culprit : Json
  message : Json
  frames : List Json

/-- The frames source expression of `parseSentry`
(`eventObj?.exception?.values?.[0]?.stacktrace?.frames || payload?... || []`). -/
def framesListOf (payload : Json) : Json :=
  let eventObj := jnn (payload.get "event") ((payload.get "data").get "event")
  jor (((((eventObj.get "exception").get "values").idx 0).get "stacktrace").get "frames")
    (jor (((((payload.get "exception").get "values").idx 0).get "stacktrace").get "frames")
      (.arr []))

/-- `(framesList as any[])`: the cast assumes an array.  A truthy non-array
would make `.slice` throw in JavaScript; theorems quantifying over payloads
carry the matching well-formedness hypothesis. -/
def Json.asArr : Json → List Json
  | .arr xs => xs
  | _ => []

/-- The frames source is an array (so the `as any[]` cast is sound). -/
def framesWf (payload : Json) : Bool :=
  match framesListOf payload with
  | .arr _ => true
  | _ => false

def parseSentry (payload : Json) : Parsed :=
  let issueObj := jnn (payload.get "issue")
    (jnn ((payload.get "data").get "issue") ((payload.get "event").get "issue"))
  let eventObj := jnn (payload.get "event") ((payload.get "data").get "event")
  let projectSlug :=
    jor (payload.get "project_slug") (jor ((payload.get "project").get "slug")
      (jor (payload.get "project")
        (jor ((((payload.get "data").get "issue").get "project").get "slug") (.str "unknown"))))
  let tagEnv :=
    match eventObj.get "tags" with
    | .arr ts =>
      match ts.find? (fun t =>
          match t.get "key" with
          | .str s => s = "environment"
          | _ => false) with
      | some t => t.get "value"
      | none => Json.null
    | _ => Json.null
  let environment :=
    jor (payload.get "environment")
      (jor (eventObj.get "environment") (jor tagEnv (.str "unknown")))
  let sentryIssueId :=
    jor (issueObj.get "id")
      (jor (payload.get "issue_id")
        (jor (((payload.get "data").get "issue").get "id") .null))
  let title :=
    jor (issueObj.get "title")
      (jor (eventObj.get "title") (jor (payload.get "title") (.str "Unhandled error")))
  let permalink :=
    jor (issueObj.get "permalink")
      (jor (payload.get "url") (jor (payload.get "issue_url") (.str "")))
  let level := jor (payload.get "level") (eventObj.get "level")
  let culprit := issueObj.get "culprit"
  let message :=
    jor (eventObj.get "message")
      (jor ((((eventObj.get "exception").get "values").idx 0).get "value")
        (jor (payload.get "message") (.str "")))
  { projectSlug, environment, sentryIssueId, title, permalink, level, culprit,
    message,
    frames := (takeLast 8 (Json.asArr (framesListOf payload))).reverse }

/-- ``groupKeyFrom = (p) => `${p.projectSlug}:${p.environment}:${p.sentryIssueId}` ``. -/
def groupKeyFrom (p : Parsed) : String :=
  p.projectSlug.toStringJS ++ ":" ++ p.environment.toStringJS ++ ":" ++
    p.sentryIssueId.toStringJS

def buildFramesMarkdown (frames : List Json) : String :=
  if frames.isEmpty then ""
  else
    let lines := frames.map (fun f =>
      let file := String.intercalate "/"
        (([f.get "module", f.get "filename"].filter Json.truthy).map Json.toStringJS)
      let line := if (f.get "lineno").truthy then ":" ++ (f.get "lineno").toStringJS else ""
      let fn := if (f.get "function").truthy then " – " ++ (f.get "function").toStringJS else ""
      "- `" ++ file ++ line ++ "`" ++ fn)
    "<details><summary>Top frames</summary>\n\n" ++ String.intercalate "\n" lines ++
      "\n\n</details>"

/-- `aiSummarize`: prompt construction and both model providers are opaque
best-effort collaborators (spec §1); failures are caught and logged in the
source, so the call never throws and yields markdown or `null` — supplied
here by the oracle. -/
def aiSummarize (_env : Env) (o : Oracle) (_parsed : Parsed) : Option String :=
  o.aiResult

def levelToLabel (level : Json) (env : Env) : Option String :=
  if !level.truthy then none
  else
    match env.LEVEL_LABELS with
    | some m => (m.find? (fun p => p.1 = level.toStringJS)).map (fun p => p.2)
    | none => none

/-- Result of `clickupCreateOrUpdate`. -/
structure CuResult where
  created : Bool
  task_id : Option String
deriving DecidableEq, Repr

/-- The ClickUp task description rendered by `clickupCreateOrUpdate`,
embedding the grouping key as ``> GroupKey: `...` ``. -/
def clickupDescription (groupKey : String) (parsed : Parsed) (aiMd : Option String) :
    String :=
  joinNL [
    "### Links",
    if parsed.permalink.truthy then "- **Sentry Issue:** " ++ parsed.permalink.toStringJS
      else "- (No Sentry link)",
    "",
    "### AI Summary",
    aiMd.getD "_AI summary unavailable_",
    "",
    "### Context",
    "- **Project:** " ++ parsed.projectSlug.toStringJS,
    if parsed.level.truthy then "- **Level:** " ++ parsed.level.toStringJS else "",
    if parsed.culprit.truthy then "- **Culprit:** `" ++ parsed.culprit.toStringJS ++ "`"
      else "",
    "",
    buildFramesMarkdown parsed.frames,
    "",
    "> GroupKey: `" ++ groupKey ++ "`"]

def clickupCreateOrUpdate (env : Env) (o : Oracle) (groupKey : String) (parsed : Parsed)
    (aiMd : Option String) (state : Option StateRecord) :
    Except String CuResult × List Eff :=
  if !truthyOpt env.CLICKUP_TOKEN || !truthyOpt env.CLICKUP_LIST_ID then
    (.ok ⟨false, none⟩, [])
  else
    let _description := clickupDescription groupKey parsed aiMd
    if !truthyOpt (state.bind (fun s => s.clickup_task_id)) then
      match o.cuCreate with
      | .ok taskId => (.ok ⟨true, some taskId⟩, [.cuCreateCall])
      | .error (s, t) =>
        (.error ("ClickUp create failed: " ++ toString s ++ " " ++ t), [.cuCreateCall])
    else
      if boolFlag env.UPDATE_CLICKUP_ON_REPEAT true then
        (.ok ⟨false, state.bind (fun s => s.clickup_task_id)⟩,
          [.cuCommentCall o.cuRepeatCommentOk])
      else
        (.ok ⟨false, state.bind (fun s => s.clickup_task_id)⟩, [])

/-- Best-effort comment: a non-success response is logged and swallowed. -/
def clickupAddComment (env : Env) (o : Oracle) (_taskId : String) (_comment : String) :
    List Eff :=
  if !truthyOpt env.CLICKUP_TOKEN then []
  else [.cuCommentCall o.cuXrefCommentOk]

/-- The narrowed parsed shape `githubCreateOrUpdateIssue` receives. -/
structure ParsedLite where
  projectSlug : Json
  environment : Json
  sentryIssueId : Json
  title : Json
  permalink : Json
  level : Json
  culprit : Json
  frames : List Json

def Parsed.toLite (p : Parsed) : ParsedLite :=
  ⟨p.projectSlug, p.environment, p.sentryIssueId, p.title, p.permalink, p.level,
    p.culprit, p.frames⟩

/-- The GitHub issue body rendered by `githubCreateOrUpdateIssue`. -/
def ghIssueBody (parsed : ParsedLite) (aiMd : Option String)
    (standards : Option StandardsRecord) : String :=
  let stText := match standards with
    | some st => st.text
    | none => ""
  joinNL [
    "## 📝 Summary",
    "Issue auto-generated from Sentry + AI review.",
    "",
    "## 🔗 Links",
    if parsed.permalink.truthy then "- **Sentry Issue:** " ++ parsed.permalink.toStringJS
      else "- (No Sentry link)",
    "",
    "## 🤖 AI Review",
    aiMd.getD "_AI summary unavailable_",
    "",
    "## 🔍 Context",
    "- **Project:** " ++ parsed.projectSlug.toStringJS,
    if parsed.level.truthy then "- **Level:** " ++ parsed.level.toStringJS else "",
    if parsed.culprit.truthy then "- **Culprit:** `" ++ parsed.culprit.toStringJS ++ "`"
      else "",
    "",
    buildFramesMarkdown parsed.frames,
    "",
    "## 📐 Standards & Expectations",
    if stText != "" then stText
      else "_No standards configured yet. Use `/admin/standards` to set them._"]

def githubCreateOrUpdateIssue (env : Env) (o : Oracle) (_groupKey : String)
    (parsed : ParsedLite) (aiMd : Option String) (standards : Option StandardsRecord)
    (existingIssueNumber : Option Nat) : Except String Nat × List Eff :=
  let parts := jsSplit env.GITHUB_REPO "/"
  let owner := (parts.get? 0).getD ""
  let repo := (parts.get? 1).getD ""
  if !truthyStr owner || !truthyStr repo then
    (.error "GITHUB_REPO must be 'owner/repo'", [])
  else
    let levelLabel := levelToLabel parsed.level env
    let baseLabels := (jsSplit (jorOptStr env.GITHUB_LABELS "sentry") ",").map jsTrim
      |>.filter (fun s => s != "")
    let _labels := baseLabels ++
      (if truthyOpt levelLabel then [levelLabel.getD ""] else []) ++
      (if truthyOpt env.GITHUB_AGENT_LABEL then [env.GITHUB_AGENT_LABEL.getD ""] else [])
    let _body := ghIssueBody parsed aiMd standards
    match existingIssueNumber with
    | none =>
      match o.ghCreate with
      | .ok n => (.ok n, [.ghCreateCall])
      | .error (s, t) =>
        (.error ("GitHub create failed: " ++ toString s ++ " " ++ t), [.ghCreateCall])
    | some n =>
      match o.ghPatch with
      | .ok _ => (.ok n, [.ghPatchCall])
      | .error (s, t) =>
        (.error ("GitHub patch failed: " ++ toString s ++ " " ++ t), [.ghPatchCall])

/-- What a handler reads from the request: method, path, `?token=`, and the
parsed JSON body (`{}` when malformed, per `.catch(() => ({}))`). -/
structure Req where
  method : String := "POST"
  pathname : String
  token : Option String := none
  payload : Json := .obj []

/-- Handler outcome: a response or a thrown error message, the KV store
afterwards, and the outbound effect trace. -/
structure HRes where
  resp : Except String Response
  store : Store
  effs : List Eff

def sentryAuthFailed (env : Env) (req : Req) : Bool :=
  truthyOpt env.SENTRY_SHARED_TOKEN ∧ req.token ≠ env.SENTRY_SHARED_TOKEN

def clickupAuthFailed (env : Env) (req : Req) : Bool :=
  truthyOpt env.CLICKUP_SHARED_TOKEN ∧ req.token ≠ env.CLICKUP_SHARED_TOKEN

def payloadKeys : Json → List String
  | .obj fs => fs.map (fun p => p.1)
  | _ => []

/-- The test-ping heuristic: at most two top-level fields and no truthy
`issue`/`event`/`data` carrier. -/
def isPing (payload : Json) : Bool :=
  (payloadKeys payload).length ≤ 2 ∧ ¬ (payload.get "issue").truthy ∧
    ¬ (payload.get "event").truthy ∧ ¬ (payload.get "data").truthy

/-- The optional immediate-GitHub stage of `handleSentry`
(`CREATE_GITHUB_ON_SENTRY` enabled). -/
def sentryGh (env : Env) (o : Oracle) (gk : String) (parsed : Parsed)
    (aiMd : Option String) (prior : Option StateRecord) (newState : StateRecord)
    (store1 : Store) (effs1 : List Eff) (finalResp : Response) : HRes :=
  let standards := kvGetStd store1
  let ghRes := githubCreateOrUpdateIssue env o gk parsed.toLite aiMd standards
    (prior.bind (fun r => r.issue_number))
  let ghEffs := ghRes.2
  match ghRes.1 with
  | .error e => ⟨.error e, store1, effs1 ++ ghEffs⟩
  | .ok num =>
    let st2 := { newState with issue_number := some num }
    let store2 := kvPut store1 gk (.state st2)
    let commentEffs :=
      if truthyOpt newState.clickup_task_id then
        clickupAddComment env o (newState.clickup_task_id.getD "")
          ("Created GitHub issue **#" ++ toString num ++ "** from Sentry event.")
      else []
    ⟨.ok finalResp, store2,
      effs1 ++ ghEffs ++ [.kvPut gk (.state st2)] ++ commentEffs⟩

/-- The correlated part of `handleSentry`: correlation-store read, ClickUp
create-or-update, correlation-store write, optional GitHub stage. -/
def sentryCorrelate (env : Env) (o : Oracle) (store : Store) (parsed : Parsed) : HRes :=
  let gk := groupKeyFrom parsed
  let prior := kvGetRec store gk
  let count := (match prior with
    | some r => r.count
    | none => 0) + 1
  let firstSeen := match prior with
    | some r => r.first_seen
    | none => o.now
  let aiMd := aiSummarize env o parsed
  let cuRes := clickupCreateOrUpdate env o gk parsed aiMd prior
  let cuEffs := cuRes.2
  match cuRes.1 with
  | .error e => ⟨.error e, store, cuEffs⟩
  | .ok cu =>
    let newState : StateRecord :=
      { clickup_task_id := cu.task_id.orElse (fun _ => prior.bind (fun r => r.clickup_task_id)),
        issue_number := prior.bind (fun r => r.issue_number),
        count := count,
        first_seen := firstSeen }
    let store1 := kvPut store gk (.state newState)
    let effs1 := cuEffs ++ [.kvPut gk (.state newState)]
    let msg := if cu.created then
        "ClickUp task " ++ cu.task_id.getD "undefined" ++ " created (occurrence " ++
          toString count ++ ")."
      else
        "ClickUp task " ++ cu.task_id.getD "(none)" ++ " updated (occurrence " ++
          toString count ++ ")."
    let finalResp := respOk msg (if cu.created then 201 else 200)
    if boolFlag env.CREATE_GITHUB_ON_SENTRY false then
      sentryGh env o gk parsed aiMd prior newState store1 effs1 finalResp
    else
      ⟨.ok finalResp, store1, effs1⟩

def handleSentry (env : Env) (o : Oracle) (req : Req) (store : Store) : HRes :=
  if sentryAuthFailed env req then ⟨.ok (respErr "unauthorized" 401), store, []⟩
  else if req.method != "POST" || req.pathname != "/webhooks/sentry" then
    ⟨.ok (respOk "Worker is running"), store, []⟩
  else
    let payload := req.payload
    if !truthyStr env.GITHUB_REPO || !truthyStr env.GITHUB_TOKEN then
      ⟨.ok (respErr "Missing GitHub config" 500), store, []⟩
    else if isPing payload then ⟨.ok (respOk "ok"), store, []⟩
    else
      let parsed := parseSentry payload
      if !parsed.sentryIssueId.truthy then ⟨.ok (respOk "ok (no issue id)"), store, []⟩
      else sentryCorrelate env o store parsed

/-- `const task = body?.task ?? body?.event?.task ?? body`. -/
def taskOf (body : Json) : Json :=
  jnn (body.get "task") (jnn ((body.get "event").get "task") body)

/-- `const taskId = task?.id || task?.task_id || body?.task_id`. -/
def taskIdOf (body : Json) : Json :=
  jor ((taskOf body).get "id") (jor ((taskOf body).get "task_id") (body.get "task_id"))

/-- The tag list of the notification (string entries kept as-is, object
entries replaced by their `name`, falsy entries filtered out); `[]` when the
source is not an array. -/
def tagsOf (body : Json) : List Json :=
  match jnn ((taskOf body).get "tags") ((taskOf body).get "tag") with
  | .arr ts =>
    (ts.map (fun t =>
      match t with
      | .str s => Json.str s
      | _ => t.get "name")).filter Json.truthy
  | _ => []

/-- `tags.map((t) => (t || "").toLowerCase())`; `none` when some truthy
entry is not a string (in JavaScript `.toLowerCase` then throws). -/
def loweredTagsOf (body : Json) : Option (List String) :=
  (tagsOf body).mapM (fun t =>
    match t with
    | .str s => some (jsToLower s)
    | _ => none)

/-- `const triggerTag = (env.CLICKUP_FIX_TAG || "ai-to-fix").toLowerCase()`. -/
def triggerTagOf (env : Env) : String :=
  jsToLower (jorOptStr env.CLICKUP_FIX_TAG "ai-to-fix")

/-- `body?.history_items?.[0]?.after?.tag || body?.changes?.tags?.added?.[0]`. -/
def addedOf (body : Json) : Json :=
  jor ((((body.get "history_items").idx 0).get "after").get "tag")
    ((((body.get "changes").get "tags").get "added").idx 0)

/-- The combined condition under which `handleClickUp` acknowledges with
"no trigger tag": no trigger in the tag list, and the change-history
fallback also yields no just-added trigger tag. -/
def noTriggerTag (env : Env) (body : Json) (lowered : List String) : Bool :=
  ¬ lowered.contains (triggerTagOf env) ∧
    (¬ (addedOf body).truthy ∨
      jsToLower (jor ((addedOf body).get "name") (addedOf body)).toStringJS ≠ triggerTagOf env)

/-- `const description: string = full?.description || ""`. -/
def descriptionOf (full : Json) : String :=
  if (full.get "description").truthy then (full.get "description").toStringJS else ""

/-- `const name = full?.name || ""`. -/
def nameOf (full : Json) : String :=
  if (full.get "name").truthy then (full.get "name").toStringJS else ""

/-- The escalation tail of `handleClickUp`, after the trigger tag has been
confirmed and the full task fetched: grouping-key recovery, event
reconstruction, GitHub create-or-update, correlation write, cross-reference
comment. -/
def clickupEscalate (env : Env) (o : Oracle) (store : Store) (taskId : Json)
    (triggerTag : String) (full : Json) : HRes :=
  let description := descriptionOf full
  match extractGroupKey description with
  | none =>
    ⟨.ok (respErr "No GroupKey found in task description" 400), store,
      [.cuGetTaskCall]⟩
  | some groupKey =>
    let state := kvGetRec store groupKey
    let name := nameOf full
    let envName := ((envScan name.toList).map String.mk).getD "unknown"
    let sentryUrl := ((urlScan description.toList).map String.mk).getD ""
    let idStr := ((jsSplit groupKey ":").getLast?).getD ""
    let strippedTitle := stripSentryTag name
    let parsedLite : ParsedLite :=
      { projectSlug := .str "unknown",
        environment := .str envName,
        sentryIssueId := if idStr != "" then .str idStr else .null,
        title := .str (if strippedTitle != "" then strippedTitle else "Unhandled error"),
        permalink := .str sentryUrl,
        level := .null,
        culprit := .null,
        frames := [] }
    let aiMd := aiFromDescription description
    let standards := kvGetStd store
    let ghRes := githubCreateOrUpdateIssue env o groupKey parsedLite aiMd standards
      (state.bind (fun r => r.issue_number))
    let ghEffs := ghRes.2
    match ghRes.1 with
    | .error e => ⟨.error e, store, [.cuGetTaskCall] ++ ghEffs⟩
    | .ok issueNo =>
      let newRec : StateRecord :=
        { clickup_task_id := some taskId.toStringJS,
          issue_number := some issueNo,
          count := (state.map (fun r => r.count)).getD 1,
          first_seen := (state.map (fun r => r.first_seen)).getD o.now }
      let store2 := kvPut store groupKey (.state newRec)
      let commentEffs := clickupAddComment env o taskId.toStringJS
        ("Created/updated GitHub issue **#" ++ toString issueNo ++
          "** for Copilot.\n\n_(Trigger: `" ++ triggerTag ++ "` tag)_")
      ⟨.ok (respOk ("GH issue #" ++ toString issueNo ++
          " created/updated from ClickUp tag.")),
        store2,
        [.cuGetTaskCall] ++ ghEffs ++ [.kvPut groupKey (.state newRec)] ++
          commentEffs⟩

def handleClickUp (env : Env) (o : Oracle) (req : Req) (store : Store) : HRes :=
  if clickupAuthFailed env req then ⟨.ok (respErr "unauthorized" 401), store, []⟩
  else if req.method != "POST" then ⟨.ok (respErr "Method not allowed" 405), store, []⟩
  else if !truthyStr env.GITHUB_REPO || !truthyStr env.GITHUB_TOKEN then
    ⟨.ok (respErr "Missing GitHub config" 500), store, []⟩
  else
    let body := req.payload
    let taskId := taskIdOf body
    if !taskId.truthy then ⟨.ok (respOk "no task id"), store, []⟩
    else
      let triggerTag := triggerTagOf env
      match loweredTagsOf body with
      | none =>
        -- a truthy non-string tag entry makes `(t || "").toLowerCase()` throw
        ⟨.error "TypeError: toLowerCase is not a function", store, []⟩
      | some lowered =>
        if noTriggerTag env body lowered then
          ⟨.ok (respOk "no trigger tag"), store, []⟩
        else if !truthyOpt env.CLICKUP_TOKEN then
          ⟨.ok (respErr "Missing CLICKUP_TOKEN" 500), store, []⟩
        else
          match o.cuGetTask with
          | .error (s, t) =>
            ⟨.ok (respErr ("ClickUp get task failed: " ++ toString s ++ " " ++ t) 502),
              store, [.cuGetTaskCall]⟩
          | .ok full => clickupEscalate env o store taskId triggerTag full

/-- `JSON.stringify(rec ?? { text: "", updated_at: null }, null, 2)`
(string escaping of the admin body is not modelled; no claim reads it). -/
def standardsJson : Option StandardsRecord → String
  | some r =>
    "\x7b\n  \"text\": \"" ++ r.text ++ "\",\n  \"updated_at\": \"" ++ r.updated_at ++
      "\"\n\x7d"
  | none => "\x7b\n  \"text\": \"\",\n  \"updated_at\": null\n\x7d"

def handleStandards (env : Env) (o : Oracle) (req : Req) (store : Store) : HRes :=
  if !truthyOpt env.ADMIN_TOKEN || req.token != env.ADMIN_TOKEN then
    ⟨.ok (respErr "unauthorized" 401), store, []⟩
  else if req.method = "GET" then
    ⟨.ok ⟨200, standardsJson (kvGetStd store)⟩, store, []⟩
  else if req.method = "PUT" then
    let text := req.payload.get "text"
    if !text.truthy then ⟨.ok (respErr "Missing \x7btext\x7d" 400), store, []⟩
    else
      let newStd : StandardsRecord := ⟨text.toStringJS, o.now⟩
      ⟨.ok ⟨201, standardsJson (some newStd)⟩,
        kvPut store STANDARDS_KEY (.std newStd),
        [.kvPut STANDARDS_KEY (.std newStd)]⟩
  else ⟨.ok (respErr "Method not allowed" 405), store, []⟩

/-- The router `fetch`: path dispatch plus the top-level catch that turns a
thrown error into a generic 500. -/
def workerFetch (env : Env) (o : Oracle) (req : Req) (store : Store) :
    Response × Store × List Eff :=
  if req.pathname = "/health" then (respOk "ok", store, [])
  else
    let h :=
      if req.pathname = "/webhooks/sentry" then handleSentry env o req store
      else if req.pathname = "/webhooks/clickup" then handleClickUp env o req store
      else if req.pathname = "/admin/standards" then handleStandards env o req store
      else ⟨.ok (respOk "Worker is running"), store, []⟩
    match h.resp with
    | .ok r => (r, h.store, h.effs)
    | .error _ => (respErr "Internal error" 500, h.store, h.effs)

end W2

namespace W1

/-- KV record of `src/src/index.ts`:
`{ issue_number: number; count: number; first_seen: string }`. -/
structure StateRecord where
  issue_number : Nat
  count : Nat
  first_seen : String
deriving DecidableEq, Repr

abbrev Store := List (String × StateRecord)

def kvGet (store : Store) (k : String) : Option StateRecord :=
  (store.find? (fun p => p.1 == k)).map (fun p => p.2)

def kvPut (store : Store) (k : String) (v : StateRecord) : Store :=
  (k, v) :: store

structure Env where
  hasState : Bool := true
  GITHUB_TOKEN : String := ""
  GITHUB_REPO : String := ""
  SENTRY_SHARED_TOKEN : Option String := none

structure Oracle where
  now : String
  ghCreate : Except (Nat × String) Nat := .error (500, "")
  ghGetBody : Except (Nat × String) Json := .error (500, "")
  ghPatch : Except (Nat × String) Unit := .error (500, "")

inductive Eff where
  | ghCreateCall
  | ghGetIssueCall
  | ghPatchCall
  | kvPut (key : String) (v : StateRecord)
deriving DecidableEq, Repr

structure Req where
  method : String := "POST"
  pathname : String
  token : Option String := none
  payload : Json := .obj []

def payloadKeys : Json → List String
  | .obj fs => fs.map (fun p => p.1)
  | _ => []

/-- The test-ping heuristic of `index.ts` (identical to the other worker's). -/
def isPing (payload : Json) : Bool :=
  (payloadKeys payload).length ≤ 2 ∧ ¬ (payload.get "issue").truthy ∧
    ¬ (payload.get "event").truthy ∧ ¬ (payload.get "data").truthy

def framesListOf (payload : Json) : Json :=
  let eventObj := jnn (payload.get "event") ((payload.get "data").get "event")
  jor (((((eventObj.get "exception").get "values").idx 0).get "stacktrace").get "frames")
    (jor (((((payload.get "exception").get "values").idx 0).get "stacktrace").get "frames")
      (.arr []))

def framesWf (payload : Json) : Bool :=
  match framesListOf payload with
  | .arr _ => true
  | _ => false

/-- One rendered stack-frame line. -/
def frameLine (f : Json) : String :=
  let file := String.intercalate "/"
    (([f.get "module", f.get "filename"].filter Json.truthy).map Json.toStringJS)
  let line := if (f.get "lineno").truthy then ":" ++ (f.get "lineno").toStringJS else ""
  let fn := if (f.get "function").truthy then " – " ++ (f.get "function").toStringJS else ""
  "- `" ++ file ++ line ++ "`" ++ fn

/-- `buildBody(occurrences, firstSeen, lastSeen)`: the issue body with the
dynamic status block; the closure context (permalink, project, level line,
culprit line, frames block) is passed explicitly.  `filter(Boolean)` drops
the empty lines before joining. -/
def buildBody (permalink projectSlug : Json) (levelLine culpritLine framesBlock : String)
    (occurrences : Nat) (firstSeen lastSeen : String) : String :=
  joinNL (([
    "## 📝 Summary",
    "New or repeated Sentry alert detected.",
    "",
    "## 🔗 Links",
    "- **Sentry Issue:** " ++ permalink.toStringJS,
    "",
    "## 🔍 Key Details",
    "**Project:** " ++ projectSlug.toStringJS,
    levelLine,
    culpritLine,
    framesBlock,
    "",
    "## 📊 Status",
    "**Occurrences:** " ++ toString occurrences ++ "  ",
    "**First seen:** " ++ firstSeen ++ "  ",
    "**Last seen:** " ++ lastSeen,
    "",
    "> Raw payload omitted. Inspect in Sentry for full context."
  ]).filter (fun s => s != ""))

/-- Literal head of `statusRegex`. -/
def statusHeading : List Char := "## 📊 Status".toList

/-- Multiline `$`: end of input or before a line terminator. -/
def dollarAt (l : List Char) : Bool :=
  match l with
  | [] => true
  | c :: _ => isLineTerm c

/-- One attempt of the terminator group `(?:\n## |\n> |\n?$)` (alternatives
tried left to right; in the last one the greedy `\n?` is tried long first).
Returns the consumed text and the remainder. -/
def tryTerm (l : List Char) : Option (List Char × List Char) :=
  if ("\n## ".toList).isPrefixOf l then some ("\n## ".toList, l.drop 4)
  else if ("\n> ".toList).isPrefixOf l then some ("\n> ".toList, l.drop 3)
  else
    match l with
    | '\n' :: r => if dollarAt r then some (['\n'], r) else some ([], l)
    | _ => if dollarAt l then some ([], l) else none

/-- Lazy `[\s\S]*?` : expand one character at a time, trying the terminator
first at every position. -/
def lazyScan (acc : List Char) : List Char → Option (List Char × List Char × List Char)
  | [] =>
    match tryTerm [] with
    | some (t, r) => some (acc.reverse, t, r)
    | none => none
  | c :: tl =>
    match tryTerm (c :: tl) with
    | some (t, r) => some (acc.reverse, t, r)
    | none => lazyScan (c :: acc) tl

/-- Leftmost match of `statusRegex = /## 📊 Status[\s\S]*?(?:\n## |\n> |\n?$)/m`:
`(text before, matched text, text after)`. -/
def findStatus (pre : List Char) : List Char → Option (List Char × List Char × List Char)
  | [] => none
  | c :: tl =>
    if statusHeading.isPrefixOf (c :: tl) then
      match lazyScan [] ((c :: tl).drop statusHeading.length) with
      | some (mid, t, r) => some (pre.reverse, statusHeading ++ mid ++ t, r)
      | none => findStatus (c :: pre) tl
    else findStatus (c :: pre) tl

/-- `statusRegex.test(body)`. -/
def statusTest (body : String) : Bool :=
  (findStatus [] body.toList).isSome

/-- The replace callback's `trailing`: the first match of
`(\n## |\n> |\n?$)` inside the matched text (relative to its own end). -/
def findTrailing : List Char → List Char
  | [] => []
  | c :: tl =>
    match tryTerm (c :: tl) with
    | some (t, _) => t
    | none => findTrailing tl

/-- The replacement status block (joined with a trailing empty element, so
it ends in a newline). -/
def newStatusBlock (newCount : Nat) (firstSeen lastSeen : String) : String :=
  joinNL [
    "## 📊 Status",
    "**Occurrences:** " ++ toString newCount ++ "  ",
    "**First seen:** " ++ firstSeen ++ "  ",
    "**Last seen:** " ++ lastSeen,
    ""]

/-- `body.replace(statusRegex, (match) => newStatusBlock + trailing)`. -/
def replaceStatus (body : String) (newBlock : String) : String :=
  match findStatus [] body.toList with
  | none => body
  | some (before, m, rest) =>
    String.mk before ++ newBlock ++ String.mk (findTrailing m) ++ String.mk rest

/-- The `updatedBody` expression of the update branch. -/
def updatedBody (issueBody : String) (newCount : Nat) (firstSeen now : String)
    (permalink projectSlug : Json) (levelLine culpritLine framesBlock : String) : String :=
  if statusTest issueBody then
    replaceStatus issueBody (newStatusBlock newCount firstSeen now)
  else
    buildBody permalink projectSlug levelLine culpritLine framesBlock newCount firstSeen now

def issueObjOf (payload : Json) : Json :=
  jnn (payload.get "issue")
    (jnn ((payload.get "data").get "issue") ((payload.get "event").get "issue"))

def eventObjOf (payload : Json) : Json :=
  jnn (payload.get "event") ((payload.get "data").get "event")

def projectSlugOf (payload : Json) : Json :=
  jor (payload.get "project_slug") (jor ((payload.get "project").get "slug")
    (jor (payload.get "project")
      (jor ((((payload.get "data").get "issue").get "project").get "slug")
        (.str "unknown"))))

def environmentOf (payload : Json) : Json :=
  let tagEnv :=
    match (eventObjOf payload).get "tags" with
    | .arr ts =>
      match ts.find? (fun t =>
          match t.get "key" with
          | .str s => s = "environment"
          | _ => false) with
      | some t => t.get "value"
      | none => Json.null
    | _ => Json.null
  jor (payload.get "environment")
    (jor ((eventObjOf payload).get "environment") (jor tagEnv (.str "unknown")))

def sentryIssueIdOf (payload : Json) : Json :=
  jor ((issueObjOf payload).get "id")
    (jor (payload.get "issue_id")
      (jor (((payload.get "data").get "issue").get "id") .null))

def permalinkOf (payload : Json) : Json :=
  jor ((issueObjOf payload).get "permalink")
    (jor (payload.get "url") (jor (payload.get "issue_url") (.str "(no Sentry link)")))

/-- `` const groupKey = `${projectSlug}:${environment}:${sentryIssueId}` ``. -/
def groupKeyOf (payload : Json) : String :=
  (projectSlugOf payload).toStringJS ++ ":" ++ (environmentOf payload).toStringJS ++ ":" ++
    (sentryIssueIdOf payload).toStringJS

/-- `const authed = env.SENTRY_SHARED_TOKEN ? searchParams.get("token") === env.SENTRY_SHARED_TOKEN : true`. -/
def authedOf (env : Env) (req : Req) : Bool :=
  if truthyOpt env.SENTRY_SHARED_TOKEN then req.token = env.SENTRY_SHARED_TOKEN else true

/-- The whole `fetch` handler of `index.ts`. -/
def fetch (env : Env) (o : Oracle) (req : Req) (store : Store) :
    Response × Store × List Eff :=
  let authed := authedOf env req
  if !authed then (respErr "unauthorized" 401, store, [])
  else if req.method != "POST" || req.pathname != "/webhooks/sentry" then
    (⟨200, "Worker is running"⟩, store, [])
  else
    let payload := req.payload
    if isPing payload then (⟨200, "ok"⟩, store, [])
    else if !truthyStr env.GITHUB_REPO then (⟨500, "Missing GITHUB_REPO"⟩, store, [])
    else if !truthyStr env.GITHUB_TOKEN then (⟨500, "Missing GITHUB_TOKEN"⟩, store, [])
    else if !env.hasState then (⟨500, "Missing KV binding STATE"⟩, store, [])
    else
      let parts := jsSplit env.GITHUB_REPO "/"
      let owner := (parts.get? 0).getD ""
      let repo := (parts.get? 1).getD ""
      if !truthyStr owner || !truthyStr repo then
        (⟨500, "GITHUB_REPO must be 'owner/repo'"⟩, store, [])
      else
        let issueObj := issueObjOf payload
        let eventObj := eventObjOf payload
        let projectSlug := projectSlugOf payload
        let sentryIssueId := sentryIssueIdOf payload
        let permalink := permalinkOf payload
        let frames := ((takeLast 4 (W2.Json.asArr (framesListOf payload))).reverse).map frameLine
        let framesBlock := if frames.length != 0 then
            "<details><summary>Top frames</summary>\n\n" ++ String.intercalate "\n" frames ++
              "\n\n</details>\n"
          else ""
        let levelJ := jor (payload.get "level") (eventObj.get "level")
        let levelLine := if levelJ.truthy then "**Level:** " ++ levelJ.toStringJS else ""
        let culpritLine := if (issueObj.get "culprit").truthy then
            "**Culprit:** `" ++ (issueObj.get "culprit").toStringJS ++ "`"
          else ""
        if !sentryIssueId.truthy then (⟨200, "ok (no issue id)"⟩, store, [])
        else
          let groupKey := groupKeyOf payload
          let state := kvGet store groupKey
          let nowIso := o.now
          match state with
          | none =>
            let _createBody := buildBody permalink projectSlug levelLine culpritLine
              framesBlock 1 nowIso nowIso
            match o.ghCreate with
            | .error (s, t) =>
              (⟨502, "GitHub issue create failed: " ++ toString s ++ " " ++ t⟩, store,
                [.ghCreateCall])
            | .ok n =>
              let newRec : StateRecord := ⟨n, 1, nowIso⟩
              (⟨201, "Created issue #" ++ toString n⟩, kvPut store groupKey newRec,
                [.ghCreateCall, .kvPut groupKey newRec])
          | some st =>
            let newCount := (if st.count = 0 then 1 else st.count) + 1
            match o.ghGetBody with
            | .error (s, t) =>
              (⟨502, "GitHub get issue failed: " ++ toString s ++ " " ++ t⟩, store,
                [.ghGetIssueCall])
            | .ok bodyJ =>
              let issueBody := if bodyJ.truthy then bodyJ.toStringJS else ""
              let _updated := updatedBody issueBody newCount st.first_seen nowIso
                permalink projectSlug levelLine culpritLine framesBlock
              match o.ghPatch with
              | .error (s, t) =>
                (⟨502, "GitHub patch failed: " ++ toString s ++ " " ++ t⟩, store,
                  [.ghGetIssueCall, .ghPatchCall])
              | .ok _ =>
                let newRec : StateRecord := { st with count := newCount }
                (⟨200, "Updated issue #" ++ toString st.issue_number ++ " (occurrences=" ++
                    toString newCount ++ ")"⟩,
                  kvPut store groupKey newRec,
                  [.ghGetIssueCall, .ghPatchCall, .kvPut groupKey newRec])

end W1

def c1Payload : Json :=
  .obj [("issue", .obj [("id", .str "42"), ("title", .str "NullPointer")]),
    ("project_slug", .str "api"), ("environment", .str "prod")]

def c1Env2 : W2.Env :=
  { GITHUB_TOKEN := "t", GITHUB_REPO := "o/r", CLICKUP_TOKEN := some "ct",
    CLICKUP_LIST_ID := some "99" }

def c1Req2 : W2.Req := { pathname := "/webhooks/sentry", payload := c1Payload }

def c1O21 : W2.Oracle := { now := "T1", cuCreate := .ok "task1" }

def c1O22 : W2.Oracle := { now := "T2" }

def c1Env1 : W1.Env := { GITHUB_TOKEN := "t", GITHUB_REPO := "o/r" }

def c1Req1 : W1.Req := { pathname := "/webhooks/sentry", payload := c1Payload }

def c1O11 : W1.Oracle := { now := "T1", ghCreate := .ok 7 }

def c1O12 : W1.Oracle := { now := "T2", ghGetBody := .ok (.str "body"), ghPatch := .ok () }

/-- A benign normalized event for the round-trip statements: falsy
permalink/level/culprit, no frames, project slug "api". -/
def c5Parsed : W2.Parsed :=
  ⟨.str "api", .str "prod", .str "42", .str "t", .null, .null, .null, .str "", []⟩

/-- Concrete oracles and inputs for the downstream-failure statements. -/
def c7O1a : W1.Oracle := { now := "T1", ghCreate := .error (500, "oops") }

def c7O1b : W1.Oracle := { now := "T1", ghGetBody := .error (404, "nf") }

def c7O1c : W1.Oracle := { now := "T1", ghGetBody := .ok (.str "b"), ghPatch := .error (403, "no") }

def c7OCu : W2.Oracle := { now := "T1", cuGetTask := .error (503, "down") }

def c7OCreate : W2.Oracle := { now := "T1", cuCreate := .error (503, "down") }

def c7ReqCu : W2.Req :=
  { pathname := "/webhooks/clickup",
    payload := .obj [("task", .obj [("id", .str "t1"), ("tags", .arr [.str "ai-to-fix"])])] }

def c7St1 : W1.Store := [("api:prod:42", ⟨5, 1, "T0"⟩)]

/-! ### Helper lemmas -/

theorem mk_toList_eq (s : String) : String.mk s.toList = s := by
  cases s
  rfl

theorem colon_cancel {a c : List Char} (ha : ':' ∉ a) (hc : ':' ∉ c) :
    ∀ {b d : List Char}, a ++ ':' :: b = c ++ ':' :: d → a = c ∧ b = d := by
  induction a generalizing c with
  | nil =>
    intro b d h
    cases c with
    | nil => simpa using h
    | cons x c' =>
      simp only [List.nil_append, List.cons_append, List.cons.injEq] at h
      refine absurd ?_ hc
      rw [← h.1]
      exact List.mem_cons_self _ _
  | cons y a' ih =>
    intro b d h
    cases c with
    | nil =>
      simp only [List.cons_append, List.nil_append, List.cons.injEq] at h
      refine absurd ?_ ha
      rw [h.1]
      exact List.mem_cons_self _ _
    | cons x c' =>
      simp only [List.cons_append, List.cons.injEq] at h
      obtain ⟨rfl, h2⟩ := h
      have := ih (fun hm => ha (List.mem_cons_of_mem _ hm))
        (fun hm => hc (List.mem_cons_of_mem _ hm)) h2
      exact ⟨by rw [this.1], this.2⟩

/-- Injectivity of colon-joined keys whose first two components are
colon-free. -/
theorem colon_join_inj (p₁ e₁ i₁ p₂ e₂ i₂ : String)
    (hp₁ : ':' ∉ p₁.data) (he₁ : ':' ∉ e₁.data)
    (hp₂ : ':' ∉ p₂.data) (he₂ : ':' ∉ e₂.data) :
    p₁ ++ ":" ++ e₁ ++ ":" ++ i₁ = p₂ ++ ":" ++ e₂ ++ ":" ++ i₂ ↔
      p₁ = p₂ ∧ e₁ = e₂ ∧ i₁ = i₂ := by
  constructor
  · intro h
    have hd := congrArg String.data h
    have hcol : (":" : String).data = [':'] := rfl
    simp only [String.data_append, hcol, List.append_assoc, List.singleton_append] at hd
    obtain ⟨h1, h2⟩ := colon_cancel hp₁ hp₂ hd
    obtain ⟨h3, h4⟩ := colon_cancel he₁ he₂ h2
    exact ⟨String.ext h1, String.ext h3, String.ext h4⟩
  · rintro ⟨rfl, rfl, rfl⟩
    rfl

/-! ### C2 — grouping-key determinism and injectivity -/

/-- C2 counterexample: two normalized events that differ in both project and
environment yet produce the same grouping key, because the components may
themselves contain the `:` separator. -/
theorem C2_counterexample :
    W2.groupKeyFrom
        { projectSlug := .str "a:b", environment := .str "c", sentryIssueId := .str "x",
          title := .str "t", permalink := .str "", level := .null, culprit := .null,
          message := .str "", frames := [] } =
      W2.groupKeyFrom
        { projectSlug := .str "a", environment := .str "b:c", sentryIssueId := .str "x",
          title := .str "t", permalink := .str "", level := .null, culprit := .null,
          message := .str "", frames := [] } ∧
    ("a:b" : String) ≠ "a" ∧ ("c" : String) ≠ "b:c" := by
  refine ⟨?_, by decide, by decide⟩
  rfl

/-- C2 (amended): for normalized events whose project, environment and
source-issue id are strings, with colon-free project and environment, the
derived grouping keys agree exactly when the three components agree. -/
theorem C2_groupKey_inj (p₁ e₁ i₁ p₂ e₂ i₂ : String)
    (hp₁ : ':' ∉ p₁.data) (he₁ : ':' ∉ e₁.data)
    (hp₂ : ':' ∉ p₂.data) (he₂ : ':' ∉ e₂.data) :
    (W2.groupKeyFrom
        { projectSlug := .str p₁, environment := .str e₁, sentryIssueId := .str i₁,
          title := .str "t", permalink := .str "", level := .null, culprit := .null,
          message := .str "", frames := [] } =
      W2.groupKeyFrom
        { projectSlug := .str p₂, environment := .str e₂, sentryIssueId := .str i₂,
          title := .str "t", permalink := .str "", level := .null, culprit := .null,
          message := .str "", frames := [] }) ↔
      (p₁ = p₂ ∧ e₁ = e₂ ∧ i₁ = i₂) := by
  simpa [W2.groupKeyFrom, Json.toStringJS] using
    colon_join_inj p₁ e₁ i₁ p₂ e₂ i₂ hp₁ he₁ hp₂ he₂

theorem C2_groupKey_inj_witness :
    (':' ∉ ("api" : String).data) ∧ (':' ∉ ("prod" : String).data) ∧
    ((W2.groupKeyFrom
        { projectSlug := .str "api", environment := .str "prod", sentryIssueId := .str "42",
          title := .str "t", permalink := .str "", level := .null, culprit := .null,
          message := .str "", frames := [] } =
      W2.groupKeyFrom
        { projectSlug := .str "api", environment := .str "prod", sentryIssueId := .str "43",
          title := .str "t", permalink := .str "", level := .null, culprit := .null,
          message := .str "", frames := [] }) ↔
      (("api" : String) = "api" ∧ ("prod" : String) = "prod" ∧ ("42" : String) = "43")) :=
  ⟨by decide, by decide,
    C2_groupKey_inj "api" "prod" "42" "api" "prod" "43"
      (by decide) (by decide) (by decide) (by decide)⟩

/-! ### C10 — AI-summary recovery from the task description -/

/-- The description contains the `"### AI Summary"` heading. -/
def hasAISummary (d : String) : Bool :=
  (splitFind aiSep d.toList).isSome

theorem popSplit_of_none {l : List Char} (h : splitFind aiSep l = none) :
    popSplit l = l := by
  unfold popSplit popSplitFuel
  rw [h]

/-- C10 counterexample: for the whitespace-only description `" "` (which
does not contain the AI-summary heading and is non-empty) the recovered
summary is the empty string, not a non-empty text. -/
theorem C10_counterexample :
    aiFromDescription " " = some "" ∧ (" " : String) ≠ "" ∧ hasAISummary " " = false := by
  refine ⟨by decide, by decide, by decide⟩

/-- C10 (amended): when the fetched description does not contain the
`"### AI Summary"` heading, the recovered summary is the whole trimmed
description — `null` exactly when the description is empty (for a
whitespace-only description it is the empty string, not `null`). -/
theorem C10_ai_block (d : String) (h : hasAISummary d = false) :
    aiFromDescription d = if d = "" then none else some (jsTrim d) := by
  have hn : splitFind aiSep d.toList = none := by
    cases heq : splitFind aiSep d.toList with
    | none => rfl
    | some r => rw [hasAISummary, heq] at h; simp at h
  unfold aiFromDescription
  rw [popSplit_of_none hn, mk_toList_eq d]
  by_cases hd : d = "" <;> simp [hd]

theorem C10_ai_block_witness :
    hasAISummary "TypeError: x is undefined" = false ∧
    aiFromDescription "TypeError: x is undefined" =
      (if ("TypeError: x is undefined" : String) = "" then none
        else some (jsTrim "TypeError: x is undefined")) :=
  ⟨by decide, C10_ai_block "TypeError: x is undefined" (by decide)⟩

/-! ### C8 — test pings are acknowledged without any store interaction -/

/-- C8: a payload with at most two top-level fields and no truthy
`issue`/`event`/`data` carrier is answered `200 "ok"` by both workers'
event endpoints, with no KV write and no ticket-store call (for the full
worker this is after the configuration guard; for the single-file worker the
ping check precedes even the configuration checks). -/
theorem C8_ping_noop (env2 : W2.Env) (o2 : W2.Oracle) (req2 : W2.Req) (st2 : W2.Store)
    (env1 : W1.Env) (o1 : W1.Oracle) (req1 : W1.Req) (st1 : W1.Store)
    (hAuth2 : W2.sentryAuthFailed env2 req2 = false)
    (hm2 : req2.method = "POST") (hp2 : req2.pathname = "/webhooks/sentry")
    (hr2 : truthyStr env2.GITHUB_REPO = true) (ht2 : truthyStr env2.GITHUB_TOKEN = true)
    (hping2 : W2.isPing req2.payload = true)
    (hAuth1 : W1.authedOf env1 req1 = true)
    (hm1 : req1.method = "POST") (hp1 : req1.pathname = "/webhooks/sentry")
    (hping1 : W1.isPing req1.payload = true) :
    W2.handleSentry env2 o2 req2 st2 = ⟨.ok (respOk "ok"), st2, []⟩ ∧
    W1.fetch env1 o1 req1 st1 = (⟨200, "ok"⟩, st1, []) := by
  constructor
  · simp [W2.handleSentry, hAuth2, hm2, hp2, hr2, ht2, hping2]
  · simp [W1.fetch, hAuth1, hm1, hp1, hping1]

theorem C8_ping_noop_witness :
    W2.handleSentry { GITHUB_TOKEN := "t", GITHUB_REPO := "o/r" } { now := "T0" }
        { pathname := "/webhooks/sentry", payload := .obj [("installation", .str "x")] } [] =
      ⟨.ok (respOk "ok"), [], []⟩ ∧
    W1.fetch { GITHUB_TOKEN := "t", GITHUB_REPO := "o/r" } { now := "T0" }
        { pathname := "/webhooks/sentry", payload := .obj [("installation", .str "x")] } [] =
      (⟨200, "ok"⟩, [], []) :=
  C8_ping_noop { GITHUB_TOKEN := "t", GITHUB_REPO := "o/r" } { now := "T0" }
    { pathname := "/webhooks/sentry", payload := .obj [("installation", .str "x")] } []
    { GITHUB_TOKEN := "t", GITHUB_REPO := "o/r" } { now := "T0" }
    { pathname := "/webhooks/sentry", payload := .obj [("installation", .str "x")] } []
    (by decide) rfl rfl (by decide) (by decide) (by decide)
    (by decide) rfl rfl (by decide)


/-! ### C6 — repeat deliveries increment the count and keep first-seen -/

theorem clickupCreateOrUpdate_no_kvPut (env : W2.Env) (o : W2.Oracle) (gk : String)
    (p : W2.Parsed) (ai : Option String) (st : Option W2.StateRecord)
    (k : String) (v : W2.KVVal) :
    W2.Eff.kvPut k v ∉ (W2.clickupCreateOrUpdate env o gk p ai st).2 := by
  unfold W2.clickupCreateOrUpdate
  repeat' split
  all_goals simp [apply_ite Prod.snd]

theorem githubCreateOrUpdateIssue_no_kvPut (env : W2.Env) (o : W2.Oracle) (gk : String)
    (p : W2.ParsedLite) (ai : Option String) (st : Option W2.StandardsRecord)
    (ex : Option Nat) (k : String) (v : W2.KVVal) :
    W2.Eff.kvPut k v ∉ (W2.githubCreateOrUpdateIssue env o gk p ai st ex).2 := by
  unfold W2.githubCreateOrUpdateIssue
  repeat' split
  all_goals simp [apply_ite Prod.snd]

theorem clickupAddComment_no_kvPut (env : W2.Env) (o : W2.Oracle) (tid c : String)
    (k : String) (v : W2.KVVal) :
    W2.Eff.kvPut k v ∉ W2.clickupAddComment env o tid c := by
  unfold W2.clickupAddComment
  repeat' split
  all_goals simp

set_option maxHeartbeats 1600000 in
/-- C6: when a correlated delivery finds an existing correlation record,
every record written back to the correlation store under that grouping key
has the prior first-seen timestamp unchanged and the prior count plus one.
For the single-file worker, whose update path computes
`(state.count || 1) + 1`, this needs the invariant that stored counts are
positive (the code itself never writes a zero count). -/
theorem C6_count_and_first_seen
    (env2 : W2.Env) (o2 : W2.Oracle) (req2 : W2.Req) (st2 : W2.Store) (rec2 : W2.StateRecord)
    (h2 : W2.kvGetRec st2 (W2.groupKeyFrom (W2.parseSentry req2.payload)) = some rec2)
    (env1 : W1.Env) (o1 : W1.Oracle) (req1 : W1.Req) (st1 : W1.Store) (rec1 : W1.StateRecord)
    (h1 : W1.kvGet st1 (W1.groupKeyOf req1.payload) = some rec1) (hc1 : 1 ≤ rec1.count) :
    (∀ r', W2.Eff.kvPut (W2.groupKeyFrom (W2.parseSentry req2.payload)) (.state r') ∈
        (W2.handleSentry env2 o2 req2 st2).effs →
      r'.count = rec2.count + 1 ∧ r'.first_seen = rec2.first_seen) ∧
    (∀ r', W1.Eff.kvPut (W1.groupKeyOf req1.payload) r' ∈ (W1.fetch env1 o1 req1 st1).2.2 →
      r'.count = rec1.count + 1 ∧ r'.first_seen = rec1.first_seen) := by
  constructor
  · intro r' hr
    simp only [W2.handleSentry, W2.sentryCorrelate, W2.sentryGh] at hr
    rw [h2] at hr
    repeat' split at hr
    all_goals try (exact absurd hr (List.not_mem_nil _))
    all_goals simp only [W2.HRes.effs, List.mem_append, List.mem_singleton, List.mem_cons,
      clickupCreateOrUpdate_no_kvPut, githubCreateOrUpdateIssue_no_kvPut, or_false,
      false_or] at hr
    all_goals simp_all [clickupAddComment_no_kvPut]
    all_goals (rcases hr with rfl | rfl <;> simp)
  · intro r' hr
    simp only [W1.fetch] at hr
    rw [h1] at hr
    repeat' split at hr
    all_goals try (exact absurd hr (List.not_mem_nil _))
    all_goals simp_all

set_option maxHeartbeats 1600000 in
theorem C6_count_and_first_seen_witness :
    ((⟨some "task1", none, 2, "T0"⟩ : W2.StateRecord).count =
        (⟨some "task1", none, 1, "T0"⟩ : W2.StateRecord).count + 1 ∧
      (⟨some "task1", none, 2, "T0"⟩ : W2.StateRecord).first_seen =
        (⟨some "task1", none, 1, "T0"⟩ : W2.StateRecord).first_seen) ∧
    ((⟨5, 2, "T0"⟩ : W1.StateRecord).count = (⟨5, 1, "T0"⟩ : W1.StateRecord).count + 1 ∧
      (⟨5, 2, "T0"⟩ : W1.StateRecord).first_seen =
        (⟨5, 1, "T0"⟩ : W1.StateRecord).first_seen) := by
  have h := C6_count_and_first_seen
    { GITHUB_TOKEN := "t", GITHUB_REPO := "o/r", CLICKUP_TOKEN := some "ct",
      CLICKUP_LIST_ID := some "99" }
    { now := "T1" }
    { pathname := "/webhooks/sentry",
      payload := .obj [("issue", .obj [("id", .str "42"), ("title", .str "NullPointer")]),
        ("project_slug", .str "api"), ("environment", .str "prod")] }
    [("api:prod:42", .state ⟨some "task1", none, 1, "T0"⟩)]
    ⟨some "task1", none, 1, "T0"⟩ (by decide)
    { GITHUB_TOKEN := "t", GITHUB_REPO := "o/r" }
    { now := "T1", ghGetBody := .ok (.str "body"), ghPatch := .ok () }
    { pathname := "/webhooks/sentry",
      payload := .obj [("issue", .obj [("id", .str "42"), ("title", .str "NullPointer")]),
        ("project_slug", .str "api"), ("environment", .str "prod")] }
    [("api:prod:42", ⟨5, 1, "T0"⟩)] ⟨5, 1, "T0"⟩ (by decide) (by decide)
  exact ⟨h.1 ⟨some "task1", none, 2, "T0"⟩ (by decide), h.2 ⟨5, 2, "T0"⟩ (by decide)⟩

/-! ### C9 — best-effort comment failures never change the outcome -/

theorem clickupCreateOrUpdate_fst_flags (env : W2.Env) (o : W2.Oracle) (b₁ b₂ : Bool)
    (gk : String) (p : W2.Parsed) (ai : Option String) (st : Option W2.StateRecord) :
    (W2.clickupCreateOrUpdate env { o with cuRepeatCommentOk := b₁, cuXrefCommentOk := b₂ }
      gk p ai st).1 = (W2.clickupCreateOrUpdate env o gk p ai st).1 := by
  simp only [W2.clickupCreateOrUpdate]
  repeat' split
  all_goals simp_all
  all_goals rfl

theorem githubCreateOrUpdateIssue_fst_flags (env : W2.Env) (o : W2.Oracle) (b₁ b₂ : Bool)
    (gk : String) (p : W2.ParsedLite) (ai : Option String) (st : Option W2.StandardsRecord)
    (ex : Option Nat) :
    (W2.githubCreateOrUpdateIssue env { o with cuRepeatCommentOk := b₁, cuXrefCommentOk := b₂ }
      gk p ai st ex).1 = (W2.githubCreateOrUpdateIssue env o gk p ai st ex).1 := by
  simp only [W2.githubCreateOrUpdateIssue]
  repeat' split
  all_goals simp_all
  all_goals rfl

theorem sentryGh_flags (env : W2.Env) (o : W2.Oracle) (b₁ b₂ : Bool) (gk : String)
    (p : W2.Parsed) (ai : Option String) (prior : Option W2.StateRecord)
    (ns : W2.StateRecord) (store1 : W2.Store) (effs1 effs1' : List W2.Eff) (fr : Response) :
    (W2.sentryGh env { o with cuRepeatCommentOk := b₁, cuXrefCommentOk := b₂ }
        gk p ai prior ns store1 effs1 fr).resp =
      (W2.sentryGh env o gk p ai prior ns store1 effs1' fr).resp ∧
    (W2.sentryGh env { o with cuRepeatCommentOk := b₁, cuXrefCommentOk := b₂ }
        gk p ai prior ns store1 effs1 fr).store =
      (W2.sentryGh env o gk p ai prior ns store1 effs1' fr).store := by
  simp only [W2.sentryGh]
  simp only [githubCreateOrUpdateIssue_fst_flags]
  constructor
  all_goals split
  all_goals rfl

theorem sentryCorrelate_flags (env : W2.Env) (o : W2.Oracle) (b₁ b₂ : Bool)
    (store : W2.Store) (p : W2.Parsed) :
    (W2.sentryCorrelate env { o with cuRepeatCommentOk := b₁, cuXrefCommentOk := b₂ }
        store p).resp = (W2.sentryCorrelate env o store p).resp ∧
    (W2.sentryCorrelate env { o with cuRepeatCommentOk := b₁, cuXrefCommentOk := b₂ }
        store p).store = (W2.sentryCorrelate env o store p).store := by
  simp only [W2.sentryCorrelate]
  have hai : W2.aiSummarize env { o with cuRepeatCommentOk := b₁, cuXrefCommentOk := b₂ } =
      W2.aiSummarize env o := rfl
  simp only [hai, clickupCreateOrUpdate_fst_flags]
  constructor
  all_goals split
  all_goals try rfl
  all_goals split
  all_goals try rfl
  · exact (sentryGh_flags env o b₁ b₂ _ _ _ _ _ _ _ _ _).1
  · exact (sentryGh_flags env o b₁ b₂ _ _ _ _ _ _ _ _ _).2

set_option maxHeartbeats 1600000 in
theorem handleSentry_flags (env : W2.Env) (o : W2.Oracle) (b₁ b₂ : Bool)
    (req : W2.Req) (store : W2.Store) :
    (W2.handleSentry env { o with cuRepeatCommentOk := b₁, cuXrefCommentOk := b₂ }
        req store).resp = (W2.handleSentry env o req store).resp ∧
    (W2.handleSentry env { o with cuRepeatCommentOk := b₁, cuXrefCommentOk := b₂ }
        req store).store = (W2.handleSentry env o req store).store := by
  simp only [W2.handleSentry]
  constructor
  all_goals split
  all_goals try rfl
  all_goals split
  all_goals try rfl
  all_goals split
  all_goals try rfl
  all_goals split
  all_goals try rfl
  all_goals split
  all_goals try rfl
  · exact (sentryCorrelate_flags env o b₁ b₂ _ _).1
  · exact (sentryCorrelate_flags env o b₁ b₂ _ _).2

theorem clickupEscalate_flags (env : W2.Env) (o : W2.Oracle) (b₁ b₂ : Bool)
    (store : W2.Store) (taskId : Json) (tt : String) (full : Json) :
    (W2.clickupEscalate env { o with cuRepeatCommentOk := b₁, cuXrefCommentOk := b₂ }
        store taskId tt full).resp =
      (W2.clickupEscalate env o store taskId tt full).resp ∧
    (W2.clickupEscalate env { o with cuRepeatCommentOk := b₁, cuXrefCommentOk := b₂ }
        store taskId tt full).store =
      (W2.clickupEscalate env o store taskId tt full).store := by
  simp only [W2.clickupEscalate]
  simp only [githubCreateOrUpdateIssue_fst_flags]
  constructor
  all_goals split
  all_goals try rfl
  all_goals split
  all_goals rfl

set_option maxHeartbeats 1600000 in
theorem handleClickUp_flags (env : W2.Env) (o : W2.Oracle) (b₁ b₂ : Bool)
    (req : W2.Req) (store : W2.Store) :
    (W2.handleClickUp env { o with cuRepeatCommentOk := b₁, cuXrefCommentOk := b₂ }
        req store).resp = (W2.handleClickUp env o req store).resp ∧
    (W2.handleClickUp env { o with cuRepeatCommentOk := b₁, cuXrefCommentOk := b₂ }
        req store).store = (W2.handleClickUp env o req store).store := by
  simp only [W2.handleClickUp]
  have hgt : ({ o with cuRepeatCommentOk := b₁, cuXrefCommentOk := b₂ } : W2.Oracle).cuGetTask
      = o.cuGetTask := rfl
  try simp only [hgt]
  constructor
  all_goals split
  all_goals try rfl
  all_goals split
  all_goals try rfl
  all_goals split
  all_goals try rfl
  all_goals split
  all_goals try rfl
  all_goals split
  all_goals try rfl
  all_goals split
  all_goals try rfl
  all_goals split
  all_goals try rfl
  all_goals split
  all_goals try rfl
  · exact (clickupEscalate_flags env o b₁ b₂ _ _ _ _).1
  · exact (clickupEscalate_flags env o b₁ b₂ _ _ _ _).2

/-- C9: the outcome of the best-effort ClickUp comments (the
repeat-occurrence comment and the cross-reference comment) has no influence
on either handler's response or resulting correlation store: runs whose
oracles differ only in those two outcomes produce identical responses and
stores (only the recorded trace of attempted comments differs). -/
theorem C9_comment_failures_ignored (env : W2.Env) (o : W2.Oracle)
    (req : W2.Req) (store : W2.Store) (b₁ b₂ b₁' b₂' : Bool) :
    ((W2.handleSentry env { o with cuRepeatCommentOk := b₁, cuXrefCommentOk := b₂ }
        req store).resp =
      (W2.handleSentry env { o with cuRepeatCommentOk := b₁', cuXrefCommentOk := b₂' }
        req store).resp ∧
    (W2.handleSentry env { o with cuRepeatCommentOk := b₁, cuXrefCommentOk := b₂ }
        req store).store =
      (W2.handleSentry env { o with cuRepeatCommentOk := b₁', cuXrefCommentOk := b₂' }
        req store).store) ∧
    ((W2.handleClickUp env { o with cuRepeatCommentOk := b₁, cuXrefCommentOk := b₂ }
        req store).resp =
      (W2.handleClickUp env { o with cuRepeatCommentOk := b₁', cuXrefCommentOk := b₂' }
        req store).resp ∧
    (W2.handleClickUp env { o with cuRepeatCommentOk := b₁, cuXrefCommentOk := b₂ }
        req store).store =
      (W2.handleClickUp env { o with cuRepeatCommentOk := b₁', cuXrefCommentOk := b₂' }
        req store).store) :=
  ⟨⟨(handleSentry_flags env o b₁ b₂ req store).1.trans
      (handleSentry_flags env o b₁' b₂' req store).1.symm,
    (handleSentry_flags env o b₁ b₂ req store).2.trans
      (handleSentry_flags env o b₁' b₂' req store).2.symm⟩,
   ⟨(handleClickUp_flags env o b₁ b₂ req store).1.trans
      (handleClickUp_flags env o b₁' b₂' req store).1.symm,
    (handleClickUp_flags env o b₁ b₂ req store).2.trans
      (handleClickUp_flags env o b₁' b₂' req store).2.symm⟩⟩

/-! ### C3 — escalation no-ops: missing trigger tag vs. missing group key -/

/-- C3 counterexample: a notification carrying the trigger tag whose fetched
task description contains no recoverable grouping-key token is answered with
HTTP 400 ("No GroupKey found in task description") — an error status, not a
2xx acknowledgment. -/
theorem C3_counterexample :
    (W2.handleClickUp
      { GITHUB_TOKEN := "t", GITHUB_REPO := "o/r", CLICKUP_TOKEN := some "ct" }
      { now := "T0",
        cuGetTask := .ok (.obj [("name", .str "[Sentry][prod] T"),
          ("description", .str "no key here")]) }
      { pathname := "/webhooks/clickup",
        payload := .obj [("task", .obj [("id", .str "99"),
          ("tags", .arr [.str "ai-to-fix"])])] }
      []).resp = .ok ⟨400, "No GroupKey found in task description"⟩ := rfl

/-- C3 (amended): with the request authorized and GitHub configured, a
notification without the trigger tag (in the tag list or the change-history
fallback) is acknowledged `200 "no trigger tag"` with no downstream call and
no correlation-store write; a triggering notification whose fetched task
body yields no grouping key is answered `400` after only the task fetch —
still no primary-store call and no correlation-store write. -/
theorem C3_no_trigger_and_no_key (env : W2.Env) (o : W2.Oracle) (req : W2.Req)
    (store : W2.Store) (lowered : List String) (full : Json)
    (hAuth : W2.clickupAuthFailed env req = false) (hm : req.method = "POST")
    (hr : truthyStr env.GITHUB_REPO = true) (ht : truthyStr env.GITHUB_TOKEN = true)
    (hid : (W2.taskIdOf req.payload).truthy = true)
    (hlw : W2.loweredTagsOf req.payload = some lowered) :
    (W2.noTriggerTag env req.payload lowered = true →
      W2.handleClickUp env o req store = ⟨.ok (respOk "no trigger tag"), store, []⟩) ∧
    (W2.noTriggerTag env req.payload lowered = false →
      truthyOpt env.CLICKUP_TOKEN = true →
      o.cuGetTask = .ok full →
      extractGroupKey (W2.descriptionOf full) = none →
      W2.handleClickUp env o req store =
        ⟨.ok (respErr "No GroupKey found in task description" 400), store,
          [.cuGetTaskCall]⟩) := by
  constructor
  · intro hnt
    simp [W2.handleClickUp, hAuth, hm, hr, ht, hid, hlw, hnt]
  · intro hnt hct hgt hgk
    simp [W2.handleClickUp, W2.clickupEscalate, hAuth, hm, hr, ht, hid, hlw, hnt, hct,
      hgt, hgk]

theorem C3_no_trigger_and_no_key_witness :
    (W2.handleClickUp
        { GITHUB_TOKEN := "t", GITHUB_REPO := "o/r", CLICKUP_TOKEN := some "ct" }
        { now := "T0" }
        { pathname := "/webhooks/clickup",
          payload := .obj [("task", .obj [("id", .str "99"),
            ("tags", .arr [.str "other"])])] }
        [] = ⟨.ok (respOk "no trigger tag"), [], []⟩) ∧
    (W2.handleClickUp
        { GITHUB_TOKEN := "t", GITHUB_REPO := "o/r", CLICKUP_TOKEN := some "ct" }
        { now := "T0",
          cuGetTask := .ok (.obj [("name", .str "[Sentry][prod] T"),
            ("description", .str "no key here")]) }
        { pathname := "/webhooks/clickup",
          payload := .obj [("task", .obj [("id", .str "99"),
            ("tags", .arr [.str "ai-to-fix"])])] }
        [] =
      ⟨.ok (respErr "No GroupKey found in task description" 400), [],
        [.cuGetTaskCall]⟩) :=
  ⟨(C3_no_trigger_and_no_key
      { GITHUB_TOKEN := "t", GITHUB_REPO := "o/r", CLICKUP_TOKEN := some "ct" }
      { now := "T0" }
      { pathname := "/webhooks/clickup",
        payload := .obj [("task", .obj [("id", .str "99"),
          ("tags", .arr [.str "other"])])] }
      [] ["other"] .null
      (by decide) rfl (by decide) (by decide) (by decide) (by decide)).1 (by decide),
   (C3_no_trigger_and_no_key
      { GITHUB_TOKEN := "t", GITHUB_REPO := "o/r", CLICKUP_TOKEN := some "ct" }
      { now := "T0",
        cuGetTask := .ok (.obj [("name", .str "[Sentry][prod] T"),
          ("description", .str "no key here")]) }
      { pathname := "/webhooks/clickup",
        payload := .obj [("task", .obj [("id", .str "99"),
          ("tags", .arr [.str "ai-to-fix"])])] }
      [] ["ai-to-fix"]
      (.obj [("name", .str "[Sentry][prod] T"), ("description", .str "no key here")])
      (by decide) rfl (by decide) (by decide) (by decide) (by decide)).2
      (by decide) (by decide) rfl (by decide)⟩

/-! ### C1 - double delivery: one create, then an update to count 2 -/

set_option maxHeartbeats 1600000 in
theorem C1w2 (env : W2.Env) (o1 o2 : W2.Oracle) (req : W2.Req) (tid : String)
    (hAuth : W2.sentryAuthFailed env req = false)
    (hm : req.method = "POST") (hp : req.pathname = "/webhooks/sentry")
    (hr : truthyStr env.GITHUB_REPO = true) (ht : truthyStr env.GITHUB_TOKEN = true)
    (hping : W2.isPing req.payload = false)
    (hwf : W2.framesWf req.payload = true)
    (hiid : (W2.parseSentry req.payload).sentryIssueId.truthy = true)
    (hct : truthyOpt env.CLICKUP_TOKEN = true)
    (hcl : truthyOpt env.CLICKUP_LIST_ID = true)
    (hgflag : boolFlag env.CREATE_GITHUB_ON_SENTRY false = false)
    (hcr : o1.cuCreate = .ok tid) (htid : tid ≠ "") :
    (W2.handleSentry env o1 req []).effs =
      [.cuCreateCall,
        .kvPut (W2.groupKeyFrom (W2.parseSentry req.payload))
          (.state ⟨some tid, none, 1, o1.now⟩)] ∧
    (W2.handleSentry env o2 req (W2.handleSentry env o1 req []).store).effs =
      (if boolFlag env.UPDATE_CLICKUP_ON_REPEAT true then
        [.cuCommentCall o2.cuRepeatCommentOk] else []) ++
      [.kvPut (W2.groupKeyFrom (W2.parseSentry req.payload))
        (.state ⟨some tid, none, 2, o1.now⟩)] ∧
    W2.kvGetRec (W2.handleSentry env o2 req (W2.handleSentry env o1 req []).store).store
      (W2.groupKeyFrom (W2.parseSentry req.payload)) =
      some ⟨some tid, none, 2, o1.now⟩ := by
  have hnone : truthyOpt none = false := rfl
  have htidT : truthyOpt (some tid) = true := by simp [truthyOpt, htid]
  have h1 : W2.handleSentry env o1 req [] =
      ⟨.ok (respOk ("ClickUp task " ++ tid ++ " created (occurrence " ++
          toString (1 : Nat) ++ ").") 201),
        [(W2.groupKeyFrom (W2.parseSentry req.payload),
          .state ⟨some tid, none, 1, o1.now⟩)],
        [.cuCreateCall,
          .kvPut (W2.groupKeyFrom (W2.parseSentry req.payload))
            (.state ⟨some tid, none, 1, o1.now⟩)]⟩ := by
    simp [W2.handleSentry, W2.sentryCorrelate, W2.clickupCreateOrUpdate, W2.kvGetRec,
      W2.kvPut, hnone, hAuth, hm, hp, hr, ht, hping, hiid, hct, hcl, hgflag, hcr]
  refine ⟨?_, ?_, ?_⟩
  · rw [h1]
  · rw [h1]
    cases hu : boolFlag env.UPDATE_CLICKUP_ON_REPEAT true <;>
      simp [W2.handleSentry, W2.sentryCorrelate, W2.clickupCreateOrUpdate, W2.kvGetRec,
        W2.kvPut, hAuth, hm, hp, hr, ht, hping, hiid, hct, hcl, hgflag, hu, htidT]
  · rw [h1]
    cases hu : boolFlag env.UPDATE_CLICKUP_ON_REPEAT true <;>
      simp [W2.handleSentry, W2.sentryCorrelate, W2.clickupCreateOrUpdate, W2.kvGetRec,
        W2.kvPut, hAuth, hm, hp, hr, ht, hping, hiid, hct, hcl, hgflag, hu, htidT]

set_option maxHeartbeats 1600000 in
theorem C1w1 (env : W1.Env) (o1 o2 : W1.Oracle) (req : W1.Req) (n : Nat) (bodyJ : Json)
    (hAuth : W1.authedOf env req = true)
    (hm : req.method = "POST") (hp : req.pathname = "/webhooks/sentry")
    (hping : W1.isPing req.payload = false)
    (hwf : W1.framesWf req.payload = true)
    (hr : truthyStr env.GITHUB_REPO = true) (ht : truthyStr env.GITHUB_TOKEN = true)
    (hs : env.hasState = true)
    (how : truthyStr (((jsSplit env.GITHUB_REPO "/").get? 0).getD "") = true)
    (hre : truthyStr (((jsSplit env.GITHUB_REPO "/").get? 1).getD "") = true)
    (hiid : (W1.sentryIssueIdOf req.payload).truthy = true)
    (hcr : o1.ghCreate = .ok n) (hgb : o2.ghGetBody = .ok bodyJ)
    (hpa : o2.ghPatch = .ok ()) :
    (W1.fetch env o1 req []).2.2 =
      [.ghCreateCall, .kvPut (W1.groupKeyOf req.payload) ⟨n, 1, o1.now⟩] ∧
    (W1.fetch env o2 req (W1.fetch env o1 req []).2.1).2.2 =
      [.ghGetIssueCall, .ghPatchCall,
        .kvPut (W1.groupKeyOf req.payload) ⟨n, 2, o1.now⟩] ∧
    W1.kvGet (W1.fetch env o2 req (W1.fetch env o1 req []).2.1).2.1
      (W1.groupKeyOf req.payload) = some ⟨n, 2, o1.now⟩ := by
  simp only [List.get?_eq_getElem?] at how hre
  have h1 : W1.fetch env o1 req [] =
      (⟨201, "Created issue #" ++ toString n⟩,
        [(W1.groupKeyOf req.payload, (⟨n, 1, o1.now⟩ : W1.StateRecord))],
        [.ghCreateCall, .kvPut (W1.groupKeyOf req.payload) ⟨n, 1, o1.now⟩]) := by
    simp [W1.fetch, W1.kvGet, W1.kvPut, hAuth, hm, hp, hping, hr, ht, hs, how, hre,
      hiid, hcr]
  refine ⟨?_, ?_, ?_⟩
  · rw [h1]
  · rw [h1]
    simp [W1.fetch, W1.kvGet, W1.kvPut, hAuth, hm, hp, hping, hr, ht, hs, how, hre,
      hiid, hgb, hpa]
  · rw [h1]
    simp [W1.fetch, W1.kvGet, W1.kvPut, hAuth, hm, hp, hping, hr, ht, hs, how, hre,
      hiid, hgb, hpa]
/-- C1: replaying one payload twice against an empty store creates exactly one
ticket on the first delivery and updates it (count 2) on the second.  The
framesWf hypotheses restrict the statement to payloads whose frames source
is an array: on a truthy non-array the real code's cast makes slice or
reverse throw, so neither worker reaches this behaviour there. -/
theorem C1_single_create_then_update
    (env2 : W2.Env) (o21 o22 : W2.Oracle) (req2 : W2.Req) (tid : String)
    (hAuth2 : W2.sentryAuthFailed env2 req2 = false)
    (hm2 : req2.method = "POST") (hp2 : req2.pathname = "/webhooks/sentry")
    (hr2 : truthyStr env2.GITHUB_REPO = true) (ht2 : truthyStr env2.GITHUB_TOKEN = true)
    (hping2 : W2.isPing req2.payload = false)
    (hwf2 : W2.framesWf req2.payload = true)
    (hiid2 : (W2.parseSentry req2.payload).sentryIssueId.truthy = true)
    (hct : truthyOpt env2.CLICKUP_TOKEN = true)
    (hcl : truthyOpt env2.CLICKUP_LIST_ID = true)
    (hgflag : boolFlag env2.CREATE_GITHUB_ON_SENTRY false = false)
    (hcr2 : o21.cuCreate = .ok tid) (htid : tid ≠ "")
    (env1 : W1.Env) (o11 o12 : W1.Oracle) (req1 : W1.Req) (n : Nat) (bodyJ : Json)
    (hAuth1 : W1.authedOf env1 req1 = true)
    (hm1 : req1.method = "POST") (hp1 : req1.pathname = "/webhooks/sentry")
    (hping1 : W1.isPing req1.payload = false)
    (hwf1 : W1.framesWf req1.payload = true)
    (hr1 : truthyStr env1.GITHUB_REPO = true) (ht1 : truthyStr env1.GITHUB_TOKEN = true)
    (hs1 : env1.hasState = true)
    (how : truthyStr (((jsSplit env1.GITHUB_REPO "/").get? 0).getD "") = true)
    (hre : truthyStr (((jsSplit env1.GITHUB_REPO "/").get? 1).getD "") = true)
    (hiid1 : (W1.sentryIssueIdOf req1.payload).truthy = true)
    (hcr1 : o11.ghCreate = .ok n) (hgb : o12.ghGetBody = .ok bodyJ)
    (hpa : o12.ghPatch = .ok ()) :
    ((W2.handleSentry env2 o21 req2 []).effs =
      [.cuCreateCall,
        .kvPut (W2.groupKeyFrom (W2.parseSentry req2.payload))
          (.state ⟨some tid, none, 1, o21.now⟩)] ∧
    (W2.handleSentry env2 o22 req2 (W2.handleSentry env2 o21 req2 []).store).effs =
      (if boolFlag env2.UPDATE_CLICKUP_ON_REPEAT true then
        [.cuCommentCall o22.cuRepeatCommentOk] else []) ++
      [.kvPut (W2.groupKeyFrom (W2.parseSentry req2.payload))
        (.state ⟨some tid, none, 2, o21.now⟩)] ∧
    W2.kvGetRec (W2.handleSentry env2 o22 req2 (W2.handleSentry env2 o21 req2 []).store).store
      (W2.groupKeyFrom (W2.parseSentry req2.payload)) =
      some ⟨some tid, none, 2, o21.now⟩) ∧
    ((W1.fetch env1 o11 req1 []).2.2 =
      [.ghCreateCall, .kvPut (W1.groupKeyOf req1.payload) ⟨n, 1, o11.now⟩] ∧
    (W1.fetch env1 o12 req1 (W1.fetch env1 o11 req1 []).2.1).2.2 =
      [.ghGetIssueCall, .ghPatchCall,
        .kvPut (W1.groupKeyOf req1.payload) ⟨n, 2, o11.now⟩] ∧
    W1.kvGet (W1.fetch env1 o12 req1 (W1.fetch env1 o11 req1 []).2.1).2.1
      (W1.groupKeyOf req1.payload) = some ⟨n, 2, o11.now⟩) :=
  ⟨C1w2 env2 o21 o22 req2 tid hAuth2 hm2 hp2 hr2 ht2 hping2 hwf2 hiid2 hct hcl hgflag
      hcr2 htid,
    C1w1 env1 o11 o12 req1 n bodyJ hAuth1 hm1 hp1 hping1 hwf1 hr1 ht1 hs1 how hre hiid1
      hcr1 hgb hpa⟩

set_option maxHeartbeats 1600000 in
theorem C1_single_create_then_update_witness :
    ((W2.handleSentry c1Env2 c1O21 c1Req2 []).effs =
      [.cuCreateCall,
        .kvPut (W2.groupKeyFrom (W2.parseSentry c1Req2.payload))
          (.state ⟨some "task1", none, 1, c1O21.now⟩)] ∧
    (W2.handleSentry c1Env2 c1O22 c1Req2 (W2.handleSentry c1Env2 c1O21 c1Req2 []).store).effs =
      (if boolFlag c1Env2.UPDATE_CLICKUP_ON_REPEAT true then
        [.cuCommentCall c1O22.cuRepeatCommentOk] else []) ++
      [.kvPut (W2.groupKeyFrom (W2.parseSentry c1Req2.payload))
        (.state ⟨some "task1", none, 2, c1O21.now⟩)] ∧
    W2.kvGetRec
      (W2.handleSentry c1Env2 c1O22 c1Req2
        (W2.handleSentry c1Env2 c1O21 c1Req2 []).store).store
      (W2.groupKeyFrom (W2.parseSentry c1Req2.payload)) =
      some ⟨some "task1", none, 2, c1O21.now⟩) ∧
    ((W1.fetch c1Env1 c1O11 c1Req1 []).2.2 =
      [.ghCreateCall, .kvPut (W1.groupKeyOf c1Req1.payload) ⟨7, 1, c1O11.now⟩] ∧
    (W1.fetch c1Env1 c1O12 c1Req1 (W1.fetch c1Env1 c1O11 c1Req1 []).2.1).2.2 =
      [.ghGetIssueCall, .ghPatchCall,
        .kvPut (W1.groupKeyOf c1Req1.payload) ⟨7, 2, c1O11.now⟩] ∧
    W1.kvGet (W1.fetch c1Env1 c1O12 c1Req1 (W1.fetch c1Env1 c1O11 c1Req1 []).2.1).2.1
      (W1.groupKeyOf c1Req1.payload) = some ⟨7, 2, c1O11.now⟩) :=
  C1_single_create_then_update c1Env2 c1O21 c1O22 c1Req2 "task1"
    (by decide) rfl rfl (by decide) (by decide) (by decide) (by decide) (by decide)
    (by decide) (by decide) (by decide) rfl (by decide)
    c1Env1 c1O11 c1O12 c1Req1 7 (.str "body")
    (by decide) rfl rfl (by decide) (by decide) (by decide) (by decide) rfl
    (by decide) (by decide) (by decide) rfl rfl rfl

/-! ### C4 - status-block reconciliation -/

set_option maxRecDepth 4096 in
/-- C4: the update does NOT replace the status block in place.  The lazy
terminator group accepts the empty multiline-dollar right after the
"## 📊 Status" heading, so the regex matches the heading alone and the
replacement inserts the new status lines while the old
"**Occurrences:** 1 ..." lines stay behind, duplicating the block (first
conjunct: the actual output; second: it differs from the claimed in-place
update).  The absent-pattern half of the claim does hold: the body is
rebuilt from the template (third conjunct). -/
theorem C4_status_update_duplicates_block :
    W1.updatedBody (W1.buildBody (.str "http://sentry/x") (.str "api") "" "" "" 1 "F" "F")
        2 "F" "L" (.str "http://sentry/x") (.str "api") "" "" "" =
      "## 📝 Summary\nNew or repeated Sentry alert detected.\n## 🔗 Links\n- **Sentry Issue:** http://sentry/x\n## 🔍 Key Details\n**Project:** api\n## 📊 Status\n**Occurrences:** 2  \n**First seen:** F  \n**Last seen:** L\n\n**Occurrences:** 1  \n**First seen:** F  \n**Last seen:** F\n> Raw payload omitted. Inspect in Sentry for full context." ∧
    W1.updatedBody (W1.buildBody (.str "http://sentry/x") (.str "api") "" "" "" 1 "F" "F")
        2 "F" "L" (.str "http://sentry/x") (.str "api") "" "" "" ≠
      W1.buildBody (.str "http://sentry/x") (.str "api") "" "" "" 2 "F" "L" ∧
    W1.updatedBody "no status here" 2 "F" "L" (.str "http://sentry/x") (.str "api") "" "" "" =
      W1.buildBody (.str "http://sentry/x") (.str "api") "" "" "" 2 "F" "L" :=
  ⟨rfl, by decide, rfl⟩

/-! ### C5 - GroupKey round-trip through the rendered description -/
theorem matchCI_not_g {c : Char} {tl : List Char} (h : c.toLower ≠ 'g') :
    matchCI gkLit (c :: tl) = none := by
  show matchCI ('G' :: "roupKey:".toList) (c :: tl) = none
  rw [matchCI, if_neg]
  intro he
  exact h (he.symm.trans (by decide))

theorem tryGk_not_g {c : Char} {tl : List Char} (h : c.toLower ≠ 'g') :
    tryGk (c :: tl) = none := by
  simp [tryGk, matchCI_not_g h]

theorem scanGk_append_no_g :
    ∀ (p : List Char), (∀ c ∈ p, c.toLower ≠ 'g') → ∀ tl, scanGk (p ++ tl) = scanGk tl
  | [], _, _ => rfl
  | c :: cs, h, tl => by
    rw [List.cons_append, scanGk, tryGk_not_g (h c (List.mem_cons_self c cs))]
    exact scanGk_append_no_g cs (fun d hd => h d (List.mem_cons_of_mem c hd)) tl

theorem scanGk_cons_some {c : Char} {tl cap : List Char} (h : tryGk (c :: tl) = some cap) :
    scanGk (c :: tl) = some cap := by
  rw [scanGk, h]

theorem takeWhile_append_all {p : Char → Bool} :
    ∀ (a b : List Char), (∀ c ∈ a, p c) → (a ++ b).takeWhile p = a ++ b.takeWhile p
  | [], _, _ => rfl
  | c :: cs, b, h => by
    rw [List.cons_append, List.takeWhile_cons, h c (List.mem_cons_self c cs),
      takeWhile_append_all cs b (fun d hd => h d (List.mem_cons_of_mem c hd))]
    simp

theorem dropWhile_append_all {p : Char → Bool} :
    ∀ (a b : List Char), (∀ c ∈ a, p c) → (a ++ b).dropWhile p = b.dropWhile p
  | [], _, _ => rfl
  | c :: cs, b, h => by
    rw [List.cons_append, List.dropWhile_cons, h c (List.mem_cons_self c cs),
      dropWhile_append_all cs b (fun d hd => h d (List.mem_cons_of_mem c hd))]
    simp

/-- The round-trip fails for the empty grouping key: the extraction
pattern's capture `([^`]+)` is non-empty, so nothing is recovered. -/
theorem C5_counterexample :
    extractGroupKey (W2.clickupDescription "" c5Parsed none) = none := by decide

/-- C5: for every non-empty, backtick-free grouping key, rendering the
ClickUp description and then applying the escalation extraction pattern
recovers exactly that key (the spec's unrestricted claim fails for the
empty key, see the counterexample). -/
theorem C5_roundtrip (key : String) (hne : key ≠ "") (hbt : btChar ∉ key.toList) :
    extractGroupKey (W2.clickupDescription key c5Parsed none) = some key := by
  have hkeyl : key.toList ≠ [] := fun h => hne (by rw [← mk_toList_eq key, h])
  have hall : ∀ c ∈ key.toList, (decide (c ≠ btChar)) = true := by
    intro c hc
    simp only [decide_eq_true_eq]
    exact fun he => hbt (he ▸ hc)
  have htry : tryGk ('G' :: ("roupKey: `".toList ++ (key.toList ++ [btChar]))) =
      some key.toList := by
    have h1 : matchCI gkLit ('G' :: ("roupKey: `".toList ++ (key.toList ++ [btChar]))) =
        some (' ' :: btChar :: (key.toList ++ [btChar])) := rfl
    simp only [tryGk, h1]
    have h2 : (' ' :: btChar :: (key.toList ++ [btChar])).dropWhile isJsWs =
        btChar :: (key.toList ++ [btChar]) := rfl
    rw [h2]
    simp only [if_pos rfl]
    rw [takeWhile_append_all key.toList [btChar] hall,
      dropWhile_append_all key.toList [btChar] hall]
    have h3 : ([btChar].takeWhile fun d => decide (d ≠ btChar)) = [] := rfl
    have h4 : ([btChar].dropWhile fun d => decide (d ≠ btChar)) = [btChar] := rfl
    rw [h3, h4]
    have hkeyd : ¬ key.data = [] := hkeyl
    simp [hkeyl, hkeyd]
  have hl : (W2.clickupDescription key c5Parsed none).toList =
      ("### Links\n- (No Sentry link)\n\n### AI Summary\n_AI summary unavailable_\n\n### Context\n- **Project:** api\n\n\n\n\n\n> ").toList ++
        ('G' :: ("roupKey: `".toList ++ (key.toList ++ [btChar]))) := rfl
  simp only [extractGroupKey, hl]
  rw [scanGk_append_no_g _ (by decide), scanGk_cons_some htry]
  simp [mk_toList_eq]

theorem C5_roundtrip_witness :
    "api:prod:42" ≠ "" ∧ btChar ∉ ("api:prod:42").toList ∧
    extractGroupKey (W2.clickupDescription "api:prod:42" c5Parsed none) =
      some "api:prod:42" :=
  ⟨by decide, by decide, C5_roundtrip "api:prod:42" (by decide) (by decide)⟩

/-! ### C7 - downstream failures on mandatory paths -/

set_option maxHeartbeats 1600000 in
/-- C7: mandatory-path downstream failures.  The single-file worker answers
502 with the downstream status and body embedded and performs no
correlation-store write, on all three of its GitHub calls (first three
conjuncts); the full worker does so only for the ClickUp task fetch (fourth
conjunct), while a ClickUp create failure on the Sentry path is thrown and
surfaces as a generic 500 "Internal error" without the downstream
status/body - though still with no correlation-store write (fifth
conjunct). -/
theorem C7_mandatory_path_failures
    (env1 : W1.Env) (o1 : W1.Oracle) (req1 : W1.Req) (st1 : W1.Store)
    (hAuth1 : W1.authedOf env1 req1 = true)
    (hm1 : req1.method = "POST") (hp1 : req1.pathname = "/webhooks/sentry")
    (hping1 : W1.isPing req1.payload = false)
    (hr1 : truthyStr env1.GITHUB_REPO = true) (ht1 : truthyStr env1.GITHUB_TOKEN = true)
    (hs1 : env1.hasState = true)
    (how : truthyStr (((jsSplit env1.GITHUB_REPO "/").get? 0).getD "") = true)
    (hre : truthyStr (((jsSplit env1.GITHUB_REPO "/").get? 1).getD "") = true)
    (hiid1 : (W1.sentryIssueIdOf req1.payload).truthy = true)
    (env2 : W2.Env) (o2 : W2.Oracle) (req2 : W2.Req) (st2 : W2.Store) (lowered : List String)
    (hA2 : W2.clickupAuthFailed env2 req2 = false)
    (hpath2 : req2.pathname = "/webhooks/clickup") (hm2 : req2.method = "POST")
    (hgr2 : truthyStr env2.GITHUB_REPO = true) (hgt2 : truthyStr env2.GITHUB_TOKEN = true)
    (htk2 : (W2.taskIdOf req2.payload).truthy = true)
    (hlow2 : W2.loweredTagsOf req2.payload = some lowered)
    (hnt2 : W2.noTriggerTag env2 req2.payload lowered = false)
    (hcu2 : truthyOpt env2.CLICKUP_TOKEN = true)
    (env3 : W2.Env) (o3 : W2.Oracle) (req3 : W2.Req) (st3 : W2.Store)
    (hAuth3 : W2.sentryAuthFailed env3 req3 = false)
    (hm3 : req3.method = "POST") (hp3 : req3.pathname = "/webhooks/sentry")
    (hr3 : truthyStr env3.GITHUB_REPO = true) (ht3 : truthyStr env3.GITHUB_TOKEN = true)
    (hping3 : W2.isPing req3.payload = false)
    (hiid3 : (W2.parseSentry req3.payload).sentryIssueId.truthy = true)
    (hct3 : truthyOpt env3.CLICKUP_TOKEN = true)
    (hcl3 : truthyOpt env3.CLICKUP_LIST_ID = true)
    (hgflag3 : boolFlag env3.CREATE_GITHUB_ON_SENTRY false = false)
    (hempty3 : W2.kvGetRec st3 (W2.groupKeyFrom (W2.parseSentry req3.payload)) = none) :
    (∀ s t, W1.kvGet st1 (W1.groupKeyOf req1.payload) = none →
      o1.ghCreate = .error (s, t) →
      W1.fetch env1 o1 req1 st1 =
        (⟨502, "GitHub issue create failed: " ++ toString s ++ " " ++ t⟩, st1,
          [.ghCreateCall])) ∧
    (∀ s t r, W1.kvGet st1 (W1.groupKeyOf req1.payload) = some r →
      o1.ghGetBody = .error (s, t) →
      W1.fetch env1 o1 req1 st1 =
        (⟨502, "GitHub get issue failed: " ++ toString s ++ " " ++ t⟩, st1,
          [.ghGetIssueCall])) ∧
    (∀ s t r bodyJ, W1.kvGet st1 (W1.groupKeyOf req1.payload) = some r →
      o1.ghGetBody = .ok bodyJ → o1.ghPatch = .error (s, t) →
      W1.fetch env1 o1 req1 st1 =
        (⟨502, "GitHub patch failed: " ++ toString s ++ " " ++ t⟩, st1,
          [.ghGetIssueCall, .ghPatchCall])) ∧
    (∀ s t, o2.cuGetTask = .error (s, t) →
      W2.workerFetch env2 o2 req2 st2 =
        (respErr ("ClickUp get task failed: " ++ toString s ++ " " ++ t) 502, st2,
          [.cuGetTaskCall])) ∧
    (∀ s t, o3.cuCreate = .error (s, t) →
      W2.workerFetch env3 o3 req3 st3 =
        (respErr "Internal error" 500, st3, [.cuCreateCall])) := by
  simp only [List.get?_eq_getElem?] at how hre
  refine ⟨?_, ?_, ?_, ?_, ?_⟩
  · intro s t hst hcr
    simp [W1.fetch, hAuth1, hm1, hp1, hping1, hr1, ht1, hs1, how, hre, hiid1, hst, hcr]
  · intro s t r hst hgb
    simp [W1.fetch, hAuth1, hm1, hp1, hping1, hr1, ht1, hs1, how, hre, hiid1, hst, hgb]
  · intro s t r bodyJ hst hgb hpa
    simp [W1.fetch, hAuth1, hm1, hp1, hping1, hr1, ht1, hs1, how, hre, hiid1, hst, hgb, hpa]
  · intro s t hget
    simp [W2.workerFetch, W2.handleClickUp, hA2, hpath2, hm2, hgr2, hgt2, htk2, hlow2,
      hnt2, hcu2, hget]
  · intro s t hcr
    have hnone : truthyOpt none = false := rfl
    simp [W2.workerFetch, W2.handleSentry, W2.sentryCorrelate, W2.clickupCreateOrUpdate,
      hnone, hAuth3, hm3, hp3, hr3, ht3, hping3, hiid3, hct3, hcl3, hgflag3, hempty3, hcr]

/-- A ClickUp create failure on the full worker's Sentry path yields 500
"Internal error" (the thrown message is swallowed by the router catch), not
the claimed 502 with embedded downstream status/body. -/
theorem C7_counterexample :
    W2.workerFetch c1Env2 c7OCreate c1Req2 [] =
      (respErr "Internal error" 500, [], [.cuCreateCall]) := by rfl

theorem C7_mandatory_path_failures_witness :
    W1.fetch c1Env1 c7O1a c1Req1 [] =
      (⟨502, "GitHub issue create failed: 500 oops"⟩, [], [.ghCreateCall]) ∧
    W1.fetch c1Env1 c7O1b c1Req1 c7St1 =
      (⟨502, "GitHub get issue failed: 404 nf"⟩, c7St1, [.ghGetIssueCall]) ∧
    W1.fetch c1Env1 c7O1c c1Req1 c7St1 =
      (⟨502, "GitHub patch failed: 403 no"⟩, c7St1, [.ghGetIssueCall, .ghPatchCall]) ∧
    W2.workerFetch c1Env2 c7OCu c7ReqCu [] =
      (respErr "ClickUp get task failed: 503 down" 502, [], [.cuGetTaskCall]) ∧
    W2.workerFetch c1Env2 c7OCreate c1Req2 [] =
      (respErr "Internal error" 500, [], [.cuCreateCall]) := by
  have hA := C7_mandatory_path_failures c1Env1 c7O1a c1Req1 []
    (by decide) rfl rfl (by decide) (by decide) (by decide) rfl (by decide) (by decide)
    (by decide)
    c1Env2 c7OCu c7ReqCu [] (["ai-to-fix"])
    (by decide) rfl rfl (by decide) (by decide) (by decide) (by decide) (by decide)
    (by decide)
    c1Env2 c7OCreate c1Req2 []
    (by decide) rfl rfl (by decide) (by decide) (by decide) (by decide) (by decide)
    (by decide) (by decide) rfl
  have hB := C7_mandatory_path_failures c1Env1 c7O1b c1Req1 c7St1
    (by decide) rfl rfl (by decide) (by decide) (by decide) rfl (by decide) (by decide)
    (by decide)
    c1Env2 c7OCu c7ReqCu [] (["ai-to-fix"])
    (by decide) rfl rfl (by decide) (by decide) (by decide) (by decide) (by decide)
    (by decide)
    c1Env2 c7OCreate c1Req2 []
    (by decide) rfl rfl (by decide) (by decide) (by decide) (by decide) (by decide)
    (by decide) (by decide) rfl
  have hC := C7_mandatory_path_failures c1Env1 c7O1c c1Req1 c7St1
    (by decide) rfl rfl (by decide) (by decide) (by decide) rfl (by decide) (by decide)
    (by decide)
    c1Env2 c7OCu c7ReqCu [] (["ai-to-fix"])
    (by decide) rfl rfl (by decide) (by decide) (by decide) (by decide) (by decide)
    (by decide)
    c1Env2 c7OCreate c1Req2 []
    (by decide) rfl rfl (by decide) (by decide) (by decide) (by decide) (by decide)
    (by decide) (by decide) rfl
  exact ⟨hA.1 500 "oops" rfl rfl, hB.2.1 404 "nf" ⟨5, 1, "T0"⟩ rfl rfl,
    hC.2.2.1 403 "no" ⟨5, 1, "T0"⟩ (.str "b") rfl rfl rfl,
    hA.2.2.2.1 503 "down" rfl, hA.2.2.2.2 503 "down" rfl⟩
